import Mathlib

/-!
Verification development for the ZB usage-metering and credit-ledger service.

The definitions below are a shallow embedding of `services/billing/server.py`
(the self-contained rewrite of the billing core; `billing_core.py` duplicates
the same `Charge`/`Reserve`/`Commit`/`GetBalance`/`AdjustBalance` bodies but
refers to names, e.g. `RESERVATION_TTL` and the pricing stub, that it does not
define), of `services/billing/exchange_service.py` (`ExchangeRateManager`),
and of `services/billing/monitoring_service.py` (`MonitoringSystem`).

Modelling conventions:
- `Decimal` values are embedded as `ℚ`; `Decimal.quantize(Decimal("0.00001"),
  ROUND_HALF_UP)` is `quantize5` below.
- The Redis substrate is embedded as explicit state (`BillingState`); every
  substrate call is assumed to succeed, which is sound here because in each
  operation of the source all `raise` statements occur before the first store
  write, so a failed call returns the state unchanged and `Except.error` with
  no result state is a faithful encoding of failure.
- gRPC authentication happens before the code modelled here and is elided;
  usage-counter increments (`hincrby`) and in-flight monitoring hook calls do
  not touch the billing state and are modelled separately / elided.
- Python `str` is `String`; the anchored regexes of the validators are
  embedded as executable character-list predicates.
-/

namespace ZB

/-- Error taxonomy of the billing service (`BillingError` subclasses in
`server.py`). Each constructor carries the message passed to the exception. -/
inductive BillingErr where
  | authError : String → BillingErr
  | validationError : String → BillingErr
  | balanceError : String → BillingErr
  | pricingError : String → BillingErr
  | reservationError : String → BillingErr
  | externalServiceError : String → BillingErr
deriving DecidableEq, Repr

/-- Character class of `USER_ID_PATTERN = ^[a-zA-Z0-9_\-]{3,64}$`. -/
def isIdChar (c : Char) : Bool :=
  c.isAlphanum || c = '_' || c = '-'

/-- Character class of `MODEL_ID_PATTERN = ^[a-zA-Z0-9_\-\.]{2,64}$`. -/
def isModelChar (c : Char) : Bool :=
  c.isAlphanum || c = '_' || c = '-' || c = '.'

/-- Anchored match of a character list against `[a-zA-Z0-9_\-]{3,64}`. -/
def idChars (cs : List Char) : Bool :=
  decide (3 ≤ cs.length) && decide (cs.length ≤ 64) && cs.all isIdChar

/-- Matches `USER_ID_PATTERN` (`validate_user_id` raises `ValidationError`
exactly when this is false). -/
def matchesUserId (s : String) : Bool :=
  idChars s.data

/-- Matches `MODEL_ID_PATTERN` (`validate_model_id` raises exactly when this
is false). -/
def matchesModelId (s : String) : Bool :=
  decide (2 ≤ s.data.length) && decide (s.data.length ≤ 64) && s.data.all isModelChar

/-- Splits a character list at every `':'`. The id character classes exclude
`':'`, so `RESERVATION_ID_PATTERN` is equivalent to a condition on the
colon-separated fields. -/
def splitOnColon : List Char → List (List Char)
  | [] => [[]]
  | c :: rest =>
    let r := splitOnColon rest
    if c = ':' then [] :: r
    else
      match r with
      | [] => [[c]]
      | g :: gs => (c :: g) :: gs

/-- Matches `RESERVATION_ID_PATTERN = ^res:[a-zA-Z0-9_\-]{3,64}:[a-zA-Z0-9_\-]{3,64}:\d+$`
(`validate_reservation_id` raises exactly when this is false). -/
def matchesReservationId (s : String) : Bool :=
  match splitOnColon s.data with
  | [r0, u, q, t] =>
    (r0 == "res".data) && idChars u && idChars q && !t.isEmpty && t.all Char.isDigit
  | _ => false

/-- Decimal quantization to five fractional digits with `ROUND_HALF_UP`
(ties away from zero), i.e. `.quantize(Decimal("0.00001"), ROUND_HALF_UP)`. -/
def quantize5 (q : ℚ) : ℚ :=
  if 0 ≤ q then (⌊q * 100000 + 1 / 2⌋ : ℚ) / 100000
  else -((⌊-q * 100000 + 1 / 2⌋ : ℚ) / 100000)

/-- Per-model pricing record: up to three unit prices per 1,000,000 tokens
(an entry of the `DEFAULT_PRICING` / `pricing:current` dictionary). A missing
key of the Python dict is `none`. -/
structure ModelPricing where
  chat_input : Option ℚ
  chat_output : Option ℚ
  embed : Option ℚ
deriving DecidableEq, Repr

/-- The pricing table `PricingManager.pricing`: a string-keyed dictionary. -/
abbrev PricingTable := List (String × ModelPricing)

/-- Dictionary lookup `self.pricing.get(model)`. -/
def lookupModel : PricingTable → String → Option ModelPricing
  | [], _ => none
  | (m, p) :: rest, model => if m = model then some p else lookupModel rest model

/-- Result of `PricingManager.get_price`: a `{"input": _, "output": _}` dict
for `chat`, a `{"embed": _}` dict for `embed`. -/
inductive Prices where
  | chat : ℚ → ℚ → Prices
  | embed : ℚ → Prices
deriving DecidableEq, Repr

/-- `PricingManager.get_price(model, endpoint)` (`server.py` lines 455-467,
identical in `pricing_service.py` lines 131-152): `model_pricing =
self.pricing.get(model, {})`, then per-endpoint unit prices divided by
1,000,000, with dictionary-`get` fallback defaults 10.00 / 30.00 / 0.13. -/
def get_price (tbl : PricingTable) (model endpoint : String) :
    Except BillingErr Prices :=
  let model_pricing := (lookupModel tbl model).getD ⟨none, none, none⟩
  if endpoint = "chat" then
    .ok (.chat ((model_pricing.chat_input.getD 10) / 1000000)
               ((model_pricing.chat_output.getD 30) / 1000000))
  else if endpoint = "embed" then
    .ok (.embed ((model_pricing.embed.getD (13 / 100)) / 1000000))
  else
    .error (.pricingError ("Unknown endpoint type: " ++ endpoint))

/-- `BillingService.calculate_cost(model, endpoint, input_t, output_t)`
(`server.py` lines 747-760): fetch unit prices, multiply by token counts and
quantize half-up to five fractional digits. The inner `prices.get(key,
default)` fallbacks (0.00001 / 0.00003 / 0.00001) are modelled by the
constructor mismatch arms, which are unreachable because `get_price` returns
the matching constructor for each recognised endpoint. -/
def calculate_cost (tbl : PricingTable) (model endpoint : String)
    (input_t output_t : Int) : Except BillingErr ℚ :=
  match get_price tbl model endpoint with
  | .error e => .error e
  | .ok prices =>
    if endpoint = "chat" then
      let input_cost : ℚ := match prices with | .chat i _ => i | _ => 1 / 100000
      let output_cost : ℚ := match prices with | .chat _ o => o | _ => 3 / 100000
      .ok (quantize5 (input_t * input_cost + output_t * output_cost))
    else if endpoint = "embed" then
      let embed_cost : ℚ := match prices with | .embed e => e | _ => 1 / 100000
      .ok (quantize5 (input_t * embed_cost))
    else
      .error (.pricingError ("Unknown endpoint type: " ++ endpoint))

/-- Status of a reservation record (`status` field: `"reserved"` /
`"committed"`). -/
inductive RStatus where
  | reserved
  | committed
deriving DecidableEq, Repr

/-- A reservation record as stored in the `reservation:<id>` Redis hash.
`actual_cost`, `input_tokens_actual` and `output_tokens_actual` are absent
(`none`) until a Commit writes them. `ttl` is the expiry set by `r.expire`. -/
structure Reservation where
  user_id : String
  model : String
  endpoint : String
  input_tokens : Int
  output_tokens : Int
  estimated_cost : ℚ
  status : RStatus
  created_at : Int
  actual_cost : Option ℚ
  input_tokens_actual : Option Int
  output_tokens_actual : Option Int
  ttl : Int
deriving DecidableEq, Repr

/-- An entry of the append-only `billing:log` stream. Fields absent from a
given `xadd` call are `none`. -/
structure LogEntry where
  user_id : String
  model : String
  endpoint : Option String
  input_tokens : Option Int
  output_tokens : Option Int
  tokens_used : Option Int
  cost_usd : ℚ
  balance_usd : ℚ
  reservation_id : Option String
  timestamp : Int
deriving DecidableEq, Repr

/-- An entry of the append-only `billing:adjustments` stream. -/
structure AdjustmentEntry where
  user_id : String
  amount_usd : ℚ
  reason : String
  timestamp : Int
deriving DecidableEq, Repr

/-- The persistent ledger state kept in Redis: `balance:<user>` keys
(`Decimal(r.get(key) or "0")` makes a missing balance read as 0, so balances
are a total map), `reservation:<id>` hashes, and the two streams. -/
structure BillingState where
  balances : String → ℚ
  reservations : String → Option Reservation
  log : List LogEntry
  adjustments : List AdjustmentEntry

/-- Pointwise update of a total string-keyed map (`r.set`). -/
def updateFn {α : Type} (f : String → α) (k : String) (v : α) : String → α :=
  fun x => if x = k then v else f x

/-- Update of the reservation store at one key (`r.hmset` / `r.hset`). -/
def updateRes (f : String → Option Reservation) (k : String) (v : Option Reservation) :
    String → Option Reservation :=
  fun x => if x = k then v else f x

/-- Substitution `request.user_id or "anonymous"`: the empty string is the
only falsy `str`, so an empty `user_id` becomes the literal `"anonymous"`. -/
def resolveUser (user_id : String) : String :=
  if user_id = "" then "anonymous" else user_id

/-- Reservation lifetime in seconds (`RESERVATION_TTL = 600`). -/
def RESERVATION_TTL : Int := 600

/-- Fields of a `Charge` RPC request. -/
structure ChargeRequest where
  user_id : String
  model : String
  tokens_used : Int
  cost : ℚ

/-- Successful `Charge` response (`BillResponse`). -/
structure ChargeResult where
  new_balance : ℚ
deriving DecidableEq, Repr

/-- `BillingService.Charge` (`server.py` lines 500-569): validate, read the
balance, reject if below `cost`, debit, append one `billing:log` entry. -/
def Charge (st : BillingState) (req : ChargeRequest) (now : Int) :
    Except BillingErr (ChargeResult × BillingState) :=
  let user_id := resolveUser req.user_id
  if ¬ matchesUserId user_id then
    .error (.validationError ("Invalid user_id format: " ++ user_id))
  else if ¬ matchesModelId req.model then
    .error (.validationError ("Invalid model_id format: " ++ req.model))
  else if req.tokens_used ≤ 0 then
    .error (.validationError "Invalid tokens_used value")
  else if req.cost ≤ 0 then
    .error (.validationError "Invalid cost value")
  else
    let balance := st.balances user_id
    if balance < req.cost then
      .error (.balanceError "Insufficient balance")
    else
      let new_balance := balance - req.cost
      let entry : LogEntry :=
        { user_id := user_id, model := req.model, endpoint := none,
          input_tokens := none, output_tokens := none,
          tokens_used := some req.tokens_used, cost_usd := req.cost,
          balance_usd := new_balance, reservation_id := none, timestamp := now }
      .ok (⟨new_balance⟩,
        { st with balances := updateFn st.balances user_id new_balance,
                  log := st.log ++ [entry] })

/-- Fields of a `Reserve` RPC request. -/
structure ReserveRequest where
  user_id : String
  request_id : String
  model : String
  endpoint : String
  input_tokens_estimate : Int
  output_tokens_estimate : Int

/-- Successful `Reserve` response (`ReserveResponse`). -/
structure ReserveResult where
  reservation_id : String
  reserved_amount : ℚ
  remaining_balance : ℚ
deriving DecidableEq, Repr

/-- The reservation id built by `Reserve`:
`f"res:{user_id}:{request_id}:{int(time.time())}"` after the `or`-defaults on
`user_id` and `request_id` (`gen_request_id` stands for the generated
`uuid4`). -/
def reserveRid (req : ReserveRequest) (gen_request_id : String) (now : Int) : String :=
  "res:" ++ resolveUser req.user_id ++ ":"
    ++ (if req.request_id = "" then gen_request_id else req.request_id)
    ++ ":" ++ toString now

/-- `BillingService.Reserve` (`server.py` lines 571-652): validate, price the
estimate, reject if the balance is below it, store the reservation hash with
TTL `RESERVATION_TTL`, debit the estimate. `r.hmset` merges fields into any
hash already stored under the same key, so the `actual_*` fields of an
existing record survive. -/
def Reserve (tbl : PricingTable) (st : BillingState) (req : ReserveRequest)
    (gen_request_id : String) (now : Int) :
    Except BillingErr (ReserveResult × BillingState) :=
  let user_id := resolveUser req.user_id
  if ¬ matchesUserId user_id then
    .error (.validationError ("Invalid user_id format: " ++ user_id))
  else if ¬ matchesModelId req.model then
    .error (.validationError ("Invalid model_id format: " ++ req.model))
  else if req.input_tokens_estimate ≤ 0 ∨ req.output_tokens_estimate < 0 then
    .error (.validationError "Invalid token values")
  else
    match calculate_cost tbl req.model req.endpoint
        req.input_tokens_estimate req.output_tokens_estimate with
    | .error e => .error e
    | .ok estimated_cost =>
      if estimated_cost ≤ 0 then
        .error (.pricingError "Invalid pricing calculation")
      else
        let balance := st.balances user_id
        if balance < estimated_cost then
          .error (.balanceError "Insufficient balance")
        else
          let reservation_id := reserveRid req gen_request_id now
          let old := st.reservations reservation_id
          let res : Reservation :=
            { user_id := user_id, model := req.model, endpoint := req.endpoint,
              input_tokens := req.input_tokens_estimate,
              output_tokens := req.output_tokens_estimate,
              estimated_cost := estimated_cost, status := .reserved,
              created_at := now,
              actual_cost := old.bind (fun r0 => r0.actual_cost),
              input_tokens_actual := old.bind (fun r0 => r0.input_tokens_actual),
              output_tokens_actual := old.bind (fun r0 => r0.output_tokens_actual),
              ttl := RESERVATION_TTL }
          let new_balance := balance - estimated_cost
          .ok (⟨reservation_id, estimated_cost, new_balance⟩,
            { st with
                reservations := updateRes st.reservations reservation_id (some res),
                balances := updateFn st.balances user_id new_balance })

/-- Successful `Commit` response (`CommitResponse`). -/
structure CommitResult where
  final_cost : ℚ
  remaining_balance : ℚ
deriving DecidableEq, Repr

/-- `BillingService.Commit` (`server.py` lines 654-744): validate the id,
load the reservation (missing ⇒ not found, `status == "committed"` ⇒ already
committed), price the actuals, set
`new_balance = balance + (estimated_cost - actual_cost)` with no
non-negativity check, mark the record committed with TTL 86400, append one
`billing:log` entry. -/
def Commit (tbl : PricingTable) (st : BillingState) (reservation_id : String)
    (input_tokens_actual output_tokens_actual : Int) (now : Int) :
    Except BillingErr (CommitResult × BillingState) :=
  if ¬ matchesReservationId reservation_id then
    .error (.validationError ("Invalid reservation_id format: " ++ reservation_id))
  else if input_tokens_actual ≤ 0 ∨ output_tokens_actual < 0 then
    .error (.validationError "Invalid token values")
  else
    match st.reservations reservation_id with
    | none => .error (.reservationError "Reservation not found")
    | some resv =>
      if resv.status = .committed then
        .error (.reservationError "Already committed")
      else
        match calculate_cost tbl resv.model resv.endpoint
            input_tokens_actual output_tokens_actual with
        | .error e => .error e
        | .ok actual_cost =>
          let balance := st.balances resv.user_id
          let new_balance := balance + (resv.estimated_cost - actual_cost)
          let resv' : Reservation :=
            { resv with status := .committed, actual_cost := some actual_cost,
                        input_tokens_actual := some input_tokens_actual,
                        output_tokens_actual := some output_tokens_actual,
                        ttl := 86400 }
          let entry : LogEntry :=
            { user_id := resv.user_id, model := resv.model,
              endpoint := some resv.endpoint,
              input_tokens := some input_tokens_actual,
              output_tokens := some output_tokens_actual, tokens_used := none,
              cost_usd := actual_cost, balance_usd := new_balance,
              reservation_id := some reservation_id, timestamp := now }
          .ok (⟨actual_cost, new_balance⟩,
            { st with
                balances := updateFn st.balances resv.user_id new_balance,
                reservations := updateRes st.reservations reservation_id (some resv'),
                log := st.log ++ [entry] })

/-- Successful `GetBalance` response. -/
structure BalanceResult where
  balance_usd : ℚ
  balance_rub : ℚ
  balance_eur : ℚ
deriving DecidableEq, Repr

/-- Dictionary lookup in the exchange-rate table. -/
def lookupRate : List (String × ℚ) → String → Option ℚ
  | [], _ => none
  | (c, q) :: rest, cur => if c = cur then some q else lookupRate rest cur

/-- `BillingService.GetBalance` (`server.py` lines 771-793): read the balance
(after the `or "anonymous"` substitution), convert through
`EXCHANGE_MANAGER.get_rate`; a missing RUB or EUR rate raises a
`ValidationError` that is caught and turned into zero converted balances. -/
def GetBalance (rates : List (String × ℚ)) (st : BillingState) (user_id : String) :
    Except BillingErr BalanceResult :=
  let u := resolveUser user_id
  if ¬ matchesUserId u then
    .error (.validationError ("Invalid user_id format: " ++ u))
  else
    let balance := st.balances u
    match lookupRate rates "RUB", lookupRate rates "EUR" with
    | some rub, some eur => .ok ⟨balance, balance * rub, balance * eur⟩
    | _, _ => .ok ⟨balance, 0, 0⟩

/-- Successful `AdjustBalance` response. -/
structure AdjustResult where
  new_balance_usd : ℚ
deriving DecidableEq, Repr

/-- `BillingService.AdjustBalance` (`server.py` lines 795-819): validate the
user id (no `anonymous` substitution here) and the amount range
(`validate_amount` rejects `amount <= 0 or amount >= 1000000`), add the delta,
append one `billing:adjustments` entry. -/
def AdjustBalance (st : BillingState) (user_id : String) (amount_usd : ℚ)
    (reason : String) (now : Int) :
    Except BillingErr (AdjustResult × BillingState) :=
  let reason := if reason = "" then "manual_adjustment" else reason
  if ¬ matchesUserId user_id then
    .error (.validationError ("Invalid user_id format: " ++ user_id))
  else if amount_usd ≤ 0 ∨ 1000000 ≤ amount_usd then
    .error (.validationError "Invalid amount")
  else
    let current := st.balances user_id
    let new := current + amount_usd
    .ok (⟨new⟩,
      { st with balances := updateFn st.balances user_id new,
                adjustments := st.adjustments ++ [⟨user_id, amount_usd, reason, now⟩] })

/-- True exactly on `Except.ok`. -/
def exceptOk {ε α : Type} : Except ε α → Bool
  | .ok _ => true
  | .error _ => false

/-- One client-visible billing operation, with the ambient inputs (generated
request id, current time) made explicit. -/
inductive BillingOp where
  | charge : ChargeRequest → Int → BillingOp
  | reserve : ReserveRequest → String → Int → BillingOp
  | commit : String → Int → Int → Int → BillingOp
  | adjust : String → ℚ → String → Int → BillingOp

/-- State after one operation: a failed operation raises before any store
write, leaving the state unchanged. -/
def applyOp (tbl : PricingTable) (st : BillingState) : BillingOp → BillingState
  | .charge req now =>
    match Charge st req now with
    | .ok (_, st') => st'
    | .error _ => st
  | .reserve req gid now =>
    match Reserve tbl st req gid now with
    | .ok (_, st') => st'
    | .error _ => st
  | .commit rid a b now =>
    match Commit tbl st rid a b now with
    | .ok (_, st') => st'
    | .error _ => st
  | .adjust u amt reason now =>
    match AdjustBalance st u amt reason now with
    | .ok (_, st') => st'
    | .error _ => st

/-- State after a sequence of operations. -/
def applyOps (tbl : PricingTable) (st : BillingState) : List BillingOp → BillingState
  | [] => st
  | op :: rest => applyOps tbl (applyOp tbl st op) rest

/-- Number of Commit operations on `rid` in the sequence that return
success. -/
def commitSuccesses (tbl : PricingTable) (st : BillingState) :
    List BillingOp → String → Nat
  | [], _ => 0
  | op :: rest, rid =>
    (match op with
     | .commit rid' a b now =>
       if rid' = rid ∧ exceptOk (Commit tbl st rid' a b now) = true then 1 else 0
     | _ => 0)
      + commitSuccesses tbl (applyOp tbl st op) rest rid

/-- Holds when no Reserve in the sequence re-derives a reservation id that is
already present in the store at the moment it runs (same user, request id and
creation second as an existing record). -/
def reservesFresh (tbl : PricingTable) (st : BillingState) : List BillingOp → Prop
  | [] => True
  | op :: rest =>
    (match op with
     | .reserve req gid now => st.reservations (reserveRid req gid now) = none
     | _ => True)
      ∧ reservesFresh tbl (applyOp tbl st op) rest

/-- In-process state of `ExchangeRateManager` (`exchange_service.py`): the
mutable `rates` dictionary and the `supported_currencies` list. -/
structure ExchangeManager where
  rates : List (String × ℚ)
  supported : List String
  last_updated : Int
deriving DecidableEq, Repr

/-- Dictionary assignment `self.rates[currency] = rate` (update in place,
insert if absent). -/
def setRate : List (String × ℚ) → String → ℚ → List (String × ℚ)
  | [], c, q => [(c, q)]
  | (c', q') :: rest, c, q =>
    if c' = c then (c, q) :: rest else (c', q') :: setRate rest c q

/-- Dictionary deletion `del self.rates[currency]`. -/
def removeRate : List (String × ℚ) → String → List (String × ℚ)
  | [], _ => []
  | (c', q') :: rest, c =>
    if c' = c then rest else (c', q') :: removeRate rest c

/-- `EXCHANGE_RATES` defaults of `exchange_service.py`. -/
def defaultRates : List (String × ℚ) :=
  [("USD", 1), ("EUR", 92 / 100), ("RUB", 965 / 10), ("USDT", 1),
   ("GBP", 79 / 100), ("CNY", 723 / 100), ("JPY", 15675 / 100),
   ("INR", 8345 / 100)]

/-- Default `supported_currencies` list. -/
def defaultSupported : List String :=
  ["USD", "EUR", "RUB", "USDT", "GBP", "CNY", "JPY", "INR"]

/-- `ExchangeRateManager.add_currency` (`exchange_service.py` lines 127-144):
rejects an existing currency and a malformed code, then inserts the rate and
appends to `supported_currencies`. (`str.isalpha` is modelled over ASCII
letters.) -/
def add_currency (m : ExchangeManager) (currency : String) (rate : ℚ) :
    Except BillingErr ExchangeManager :=
  if (lookupRate m.rates currency).isSome then
    .error (.validationError ("Currency " ++ currency ++ " already exists"))
  else if ¬ (currency.data.all Char.isAlpha ∧ currency.length = 3) then
    .error (.validationError ("Invalid currency code: " ++ currency))
  else
    .ok { m with rates := setRate m.rates currency rate,
                 supported := m.supported ++ [currency] }

/-- `ExchangeRateManager.remove_currency` (`exchange_service.py` lines
146-163): USD and USDT are rejected, a missing currency is rejected, any
other entry is deleted from both the rates and the supported list. -/
def remove_currency (m : ExchangeManager) (currency : String) :
    Except BillingErr ExchangeManager :=
  if currency = "USD" ∨ currency = "USDT" then
    .error (.validationError "Cannot remove base currencies (USD, USDT)")
  else if (lookupRate m.rates currency).isNone then
    .error (.validationError ("Currency " ++ currency ++ " not found"))
  else
    .ok { m with rates := removeRate m.rates currency,
                 supported := m.supported.erase currency }

/-- `ExchangeRateManager.update_currency_rate` (`exchange_service.py` lines
165-179): rejects a missing currency, otherwise overwrites the rate — with no
guard for USD or USDT. -/
def update_currency_rate (m : ExchangeManager) (currency : String) (rate : ℚ)
    (now : Int) : Except BillingErr ExchangeManager :=
  if (lookupRate m.rates currency).isNone then
    .error (.validationError ("Currency " ++ currency ++ " not found"))
  else
    .ok { m with rates := setRate m.rates currency rate, last_updated := now }

/-- One step of the `new_rates` construction in a successful
`ExchangeRateManager.fetch_exchange_rates` (`exchange_service.py` lines
52-99): USD is skipped (seeded as 1), USDT is pinned to 1, every other
supported currency takes the feed value, falling back to the previous rate or
1. The external feed is the function `feed`. -/
def fetchStep (m : ExchangeManager) (feed : String → Option ℚ)
    (acc : List (String × ℚ)) (c : String) : List (String × ℚ) :=
  if c = "USD" then acc
  else if c = "USDT" then setRate acc c 1
  else
    match feed c with
    | some q => setRate acc c q
    | none => setRate acc c ((lookupRate m.rates c).getD 1)

/-- The rates dictionary after a successful fetch. -/
def fetchedRates (m : ExchangeManager) (feed : String → Option ℚ) :
    List (String × ℚ) :=
  m.supported.foldl (fetchStep m feed) [("USD", 1)]

/-- A successful `fetch_exchange_rates` replaces the table with
`fetchedRates` (a failed HTTP fetch raises before any mutation and leaves the
manager unchanged, so only the success path mutates). -/
def fetch_exchange_rates (m : ExchangeManager) (feed : String → Option ℚ)
    (now : Int) : ExchangeManager :=
  { m with rates := fetchedRates m feed, last_updated := now }

/-- Exchange-table operations covered by the pinned-rate analysis. -/
inductive ExchangeOp where
  | add : String → ℚ → ExchangeOp
  | remove : String → ExchangeOp
  | update : String → ℚ → Int → ExchangeOp
  | fetch : (String → Option ℚ) → Int → ExchangeOp

/-- State after one exchange-table operation (failures leave the manager
unchanged). -/
def applyExchangeOp (m : ExchangeManager) : ExchangeOp → ExchangeManager
  | .add c q =>
    match add_currency m c q with
    | .ok m' => m'
    | .error _ => m
  | .remove c =>
    match remove_currency m c with
    | .ok m' => m'
    | .error _ => m
  | .update c q now =>
    match update_currency_rate m c q now with
    | .ok m' => m'
    | .error _ => m
  | .fetch feed now => fetch_exchange_rates m feed now

/-- State after a sequence of exchange-table operations. -/
def applyExchangeOps (m : ExchangeManager) : List ExchangeOp → ExchangeManager
  | [] => m
  | op :: rest => applyExchangeOps (applyExchangeOp m op) rest

/-- The pinned-currency property: USD and USDT carry rate 1 and USDT is
listed as supported (USD needs no listing because `fetchedRates` seeds it). -/
def pinned (m : ExchangeManager) : Prop :=
  lookupRate m.rates "USD" = some 1 ∧ lookupRate m.rates "USDT" = some 1
    ∧ "USDT" ∈ m.supported

/-- Metric counters of `MonitoringSystem.metrics`
(`monitoring_service.py` lines 38-47). The dictionary also carries the
configured cooldown under the key `"alert_cooldown"`; note that this is the
only place the value 3600 is stored — the class never assigns a
`self.alert_cooldown` attribute. -/
structure MonitoringMetrics where
  total_requests : Nat
  successful_requests : Nat
  failed_requests : Nat
  total_charges : ℚ
  total_reservations : Nat
  total_commits : Nat
  last_alert : Int
  alert_cooldown : Int
deriving DecidableEq, Repr

/-- An entry of the `billing:alerts` stream (the numeric formatting of the
message and the metrics snapshot are elided; the message keeps its
distinguishing prefix). -/
structure Alert where
  message : String
  timestamp : Int
deriving DecidableEq, Repr

/-- In-process state of `MonitoringSystem`, with the `alert_thresholds`
dictionary inlined as fields. -/
structure MonitoringSystem where
  low_balance : ℚ
  high_usage : Int
  error_rate : ℚ
  reservation_ttl : Int
  metrics : MonitoringMetrics
  alerts : List Alert
deriving DecidableEq, Repr

/-- Fresh `MonitoringSystem()` state. -/
def monInit : MonitoringSystem :=
  { low_balance := 10, high_usage := 1000000, error_rate := 5 / 100,
    reservation_ttl := 300,
    metrics := ⟨0, 0, 0, 0, 0, 0, 0, 3600⟩, alerts := [] }

/-- `MonitoringSystem.trigger_alert` (`monitoring_service.py` lines 84-101):
unconditionally stamps `last_alert` and appends to `billing:alerts`. -/
def trigger_alert (m : MonitoringSystem) (message : String) (now : Int) :
    MonitoringSystem :=
  { m with metrics := { m.metrics with last_alert := now },
           alerts := m.alerts ++ [⟨message, now⟩] }

/-- A monitoring call that does not return normally: a Python
`AttributeError` from reading an attribute that was never assigned, or a
block forever on re-acquiring the non-reentrant `threading.Lock` already held
by the calling frame. -/
inductive MonFailure where
  | attributeError : String → MonFailure
  | deadlock : MonFailure
deriving DecidableEq, Repr

/-- `MonitoringSystem.check_alerts` (`monitoring_service.py` lines 69-82):
the body acquires `self.lock`, reads `time.time()` and
`self.metrics["last_alert"]`, and then line 73 reads `self.alert_cooldown` —
an attribute `__init__` never assigns (the 3600 value exists only under
`self.metrics["alert_cooldown"]`) — so every call raises `AttributeError`
before any cooldown comparison, threshold evaluation or state write; the
cooldown logic that the lines below the raise describe is unreachable. -/
def check_alerts (_m : MonitoringSystem) (_now : Int) :
    Except MonFailure MonitoringSystem :=
  .error (.attributeError "alert_cooldown")

/-- `MonitoringSystem.check_user_balance` (`monitoring_service.py` lines
112-115): fires the low-balance alert directly, with no cooldown check. -/
def check_user_balance (m : MonitoringSystem) (user_id : String) (balance : ℚ)
    (now : Int) : MonitoringSystem :=
  if balance < m.low_balance then
    trigger_alert m ("Low balance for user " ++ user_id) now
  else m

/-- `MonitoringSystem.check_usage` (`monitoring_service.py` lines 117-120):
fires the high-usage alert directly, with no cooldown check. -/
def check_usage (m : MonitoringSystem) (user_id : String) (tokens : Int)
    (now : Int) : MonitoringSystem :=
  if m.high_usage < tokens then
    trigger_alert m ("High usage for user " ++ user_id) now
  else m

/-- `MonitoringSystem.log_transaction` (`monitoring_service.py` lines 50-67):
the counter updates of lines 53-64 run inside `with self.lock:`, and the
trailing `self.check_alerts()` on line 67 then re-acquires the same
non-reentrant `threading.Lock` on line 71 — a self-deadlock. The call never
returns, the lock is never released (so the partial counter updates are
unobservable even by other threads), and no alert is ever emitted through
this path. -/
def log_transaction (_m : MonitoringSystem) (_tx_type : String)
    (_amount : Option ℚ) (_success : Bool) (_now : Int) :
    Except MonFailure MonitoringSystem :=
  .error .deadlock

/-! Concrete fixtures used by the witnesses and counterexamples. The pricing
table mirrors the `DEFAULT_PRICING` entries used in the specification's
scenarios (gpt-4o chat at 5.00 / 15.00 per million, embedding at 0.13 per
million). -/

/-- Pricing fixture mirroring the scenario entries of `DEFAULT_PRICING`. -/
def demoPricing : PricingTable :=
  [("gpt-4o", ⟨some 5, some 15, some (1 / 10)⟩),
   ("text-embedding-3-large", ⟨none, none, some (13 / 100)⟩)]

/-- Ledger state with no balances, reservations or log entries. -/
def emptyState : BillingState :=
  { balances := fun _ => 0, reservations := fun _ => none,
    log := [], adjustments := [] }

/-- Ledger state with a single funded account. -/
def withBalance (u : String) (q : ℚ) : BillingState :=
  { emptyState with balances := updateFn emptyState.balances u q }

/-! Helper lemmas about the map updates and the quantizer. -/

theorem updateFn_same {α : Type} (f : String → α) (k : String) (v : α) :
    updateFn f k v k = v := by
  simp [updateFn]

theorem updateFn_other {α : Type} (f : String → α) (k : String) (v : α)
    (x : String) (h : x ≠ k) : updateFn f k v x = f x := by
  simp [updateFn, h]

theorem updateRes_same (f : String → Option Reservation) (k : String)
    (v : Option Reservation) : updateRes f k v k = v := by
  simp [updateRes]

theorem updateRes_other (f : String → Option Reservation) (k : String)
    (v : Option Reservation) (x : String) (h : x ≠ k) :
    updateRes f k v x = f x := by
  simp [updateRes, h]

/-- Evaluation rule for the quantizer on a non-negative argument: the
rounded value is the integer `n` with `n ≤ q·10⁵ + 1/2 < n + 1`. -/
theorem quantize5_eval (q : ℚ) (n : ℤ) (hq : 0 ≤ q)
    (h1 : (n : ℚ) ≤ q * 100000 + 1 / 2) (h2 : q * 100000 + 1 / 2 < n + 1) :
    quantize5 q = (n : ℚ) / 100000 := by
  unfold quantize5
  rw [if_pos hq]
  congr 1
  exact_mod_cast Int.floor_eq_iff.mpr ⟨h1, h2⟩

/-- Values already expressible with five fractional digits are fixed points
of the quantizer. -/
theorem quantize5_exact (n : ℤ) (hn : 0 ≤ n) :
    quantize5 ((n : ℚ) / 100000) = (n : ℚ) / 100000 := by
  refine quantize5_eval _ n ?_ ?_ ?_
  · positivity
  · rw [div_mul_cancel₀] <;> norm_num
  · rw [div_mul_cancel₀] <;> norm_num

/-- The quantizer output always has at most five fractional digits. -/
theorem quantize5_denom (q : ℚ) : ∃ n : ℤ, quantize5 q = (n : ℚ) / 100000 := by
  unfold quantize5
  split
  · exact ⟨_, rfl⟩
  · exact ⟨-⌊-q * 100000 + 1 / 2⌋, by push_cast; ring⟩

/-! Closed-form evaluation of the pricing lookup and cost computation. -/

/-- Chat pricing present in the table: `calculate_cost` returns the §4.3
formula quantized. -/
theorem calculate_cost_chat (tbl : PricingTable) (model : String)
    (mp : ModelPricing) (pin pout : ℚ) (input_t output_t : Int)
    (hm : lookupModel tbl model = some mp)
    (hin : mp.chat_input = some pin) (hout : mp.chat_output = some pout) :
    calculate_cost tbl model "chat" input_t output_t
      = .ok (quantize5 ((input_t * pin + output_t * pout) / 1000000)) := by
  unfold calculate_cost get_price
  simp [hm, hin, hout]
  have h : (input_t : ℚ) * (pin / 1000000) + (output_t : ℚ) * (pout / 1000000)
      = ((input_t : ℚ) * pin + (output_t : ℚ) * pout) / 1000000 := by ring
  rw [h]

/-- Embed pricing present in the table: `calculate_cost` returns the §4.3
formula quantized. -/
theorem calculate_cost_embed (tbl : PricingTable) (model : String)
    (mp : ModelPricing) (pembed : ℚ) (input_t output_t : Int)
    (hm : lookupModel tbl model = some mp) (hemb : mp.embed = some pembed) :
    calculate_cost tbl model "embed" input_t output_t
      = .ok (quantize5 ((input_t * pembed) / 1000000)) := by
  unfold calculate_cost get_price
  simp [hm, hemb]
  have h : (input_t : ℚ) * (pembed / 1000000) = ((input_t : ℚ) * pembed) / 1000000 := by
    ring
  rw [h]

/-! Inversion lemmas: the exact shape of each operation's successful result
and post-state, read off the definitions. -/

/-- Inversion for a successful Charge. -/
theorem Charge_ok_inv (st : BillingState) (req : ChargeRequest) (now : Int)
    (res : ChargeResult) (st' : BillingState)
    (h : Charge st req now = .ok (res, st')) :
    res.new_balance = st.balances (resolveUser req.user_id) - req.cost
    ∧ st'.balances
        = updateFn st.balances (resolveUser req.user_id) res.new_balance
    ∧ st'.reservations = st.reservations
    ∧ st'.adjustments = st.adjustments
    ∧ st'.log = st.log
        ++ [⟨resolveUser req.user_id, req.model, none, none, none,
             some req.tokens_used, req.cost, res.new_balance, none, now⟩] := by
  simp only [Charge] at h
  repeat' split at h
  any_goals solve | simp at h
  rw [Except.ok.injEq, Prod.mk.injEq] at h
  obtain ⟨h1, h2⟩ := h
  subst h1
  subst h2
  refine ⟨rfl, rfl, rfl, rfl, rfl⟩

/-- Inversion for a successful Reserve. -/
theorem Reserve_ok_inv (tbl : PricingTable) (st : BillingState)
    (req : ReserveRequest) (gid : String) (now : Int)
    (res : ReserveResult) (st' : BillingState)
    (h : Reserve tbl st req gid now = .ok (res, st')) :
    ∃ resv : Reservation,
      resv.status = .reserved ∧ resv.ttl = RESERVATION_TTL
      ∧ resv.estimated_cost = res.reserved_amount
      ∧ resv.user_id = resolveUser req.user_id
      ∧ res.reservation_id = reserveRid req gid now
      ∧ res.remaining_balance
          = st.balances (resolveUser req.user_id) - res.reserved_amount
      ∧ calculate_cost tbl req.model req.endpoint req.input_tokens_estimate
          req.output_tokens_estimate = .ok res.reserved_amount
      ∧ st'.reservations
          = updateRes st.reservations (reserveRid req gid now) (some resv)
      ∧ st'.balances
          = updateFn st.balances (resolveUser req.user_id) res.remaining_balance
      ∧ st'.log = st.log ∧ st'.adjustments = st.adjustments := by
  simp only [Reserve] at h
  repeat' split at h
  any_goals solve | simp at h
  rename_i hcost _ _
  rw [Except.ok.injEq, Prod.mk.injEq] at h
  obtain ⟨h1, h2⟩ := h
  subst h1
  subst h2
  exact ⟨_, rfl, rfl, rfl, rfl, rfl, rfl, hcost, rfl, rfl, rfl, rfl⟩

/-- Inversion for a successful Commit. -/
theorem Commit_ok_inv (tbl : PricingTable) (st : BillingState) (rid : String)
    (a b now : Int) (res : CommitResult) (st' : BillingState)
    (h : Commit tbl st rid a b now = .ok (res, st')) :
    ∃ resv : Reservation,
      st.reservations rid = some resv ∧ resv.status ≠ .committed
      ∧ calculate_cost tbl resv.model resv.endpoint a b = .ok res.final_cost
      ∧ res.remaining_balance
          = st.balances resv.user_id + (resv.estimated_cost - res.final_cost)
      ∧ st'.reservations
          = updateRes st.reservations rid
              (some { resv with status := .committed,
                                actual_cost := some res.final_cost,
                                input_tokens_actual := some a,
                                output_tokens_actual := some b,
                                ttl := 86400 })
      ∧ st'.balances
          = updateFn st.balances resv.user_id res.remaining_balance
      ∧ st'.log = st.log
          ++ [⟨resv.user_id, resv.model, some resv.endpoint, some a, some b,
               none, res.final_cost, res.remaining_balance, some rid, now⟩]
      ∧ st'.adjustments = st.adjustments := by
  simp only [Commit] at h
  repeat' split at h
  any_goals solve | simp at h
  rename_i x1 resv hres hstat x2 cost hcost
  rw [Except.ok.injEq, Prod.mk.injEq] at h
  obtain ⟨h1, h2⟩ := h
  subst h1
  subst h2
  exact ⟨resv, hres, hstat, hcost, rfl, rfl, rfl, rfl, rfl⟩

/-- Inversion for a successful AdjustBalance. -/
theorem AdjustBalance_ok_inv (st : BillingState) (u : String) (amt : ℚ)
    (reason : String) (now : Int) (res : AdjustResult) (st' : BillingState)
    (h : AdjustBalance st u amt reason now = .ok (res, st')) :
    matchesUserId u = true ∧ 0 < amt ∧ amt < 1000000
    ∧ res.new_balance_usd = st.balances u + amt
    ∧ st'.balances = updateFn st.balances u res.new_balance_usd
    ∧ st'.reservations = st.reservations
    ∧ st'.log = st.log
    ∧ st'.adjustments = st.adjustments
        ++ [⟨u, amt, (if reason = "" then "manual_adjustment" else reason), now⟩] := by
  simp only [AdjustBalance] at h
  split at h
  next hval => simp at h
  next hval =>
    split at h
    next hrange => simp at h
    next hrange =>
      rw [Except.ok.injEq, Prod.mk.injEq] at h
      obtain ⟨h1, h2⟩ := h
      subst h1
      subst h2
      push_neg at hrange
      refine ⟨by simpa using hval, hrange.1, hrange.2, rfl, rfl, rfl, rfl, rfl⟩

/-! Failure lemmas for Commit. -/

/-- A Commit against a missing reservation never succeeds; with well-formed
arguments it fails with the not-found `ReservationError`. -/
theorem Commit_missing (tbl : PricingTable) (st : BillingState) (rid : String)
    (a b now : Int) (hres : st.reservations rid = none) :
    exceptOk (Commit tbl st rid a b now) = false
    ∧ (matchesReservationId rid = true → 0 < a → 0 ≤ b →
        Commit tbl st rid a b now = .error (.reservationError "Reservation not found")) := by
  constructor
  · unfold Commit
    repeat' split
    any_goals rfl
    all_goals simp_all
  · intro hv ha hb
    unfold Commit
    rw [if_neg (by simp [hv]), if_neg (by omega), hres]

/-- A Commit against an already-committed reservation never succeeds; with
well-formed arguments it fails with the already-committed
`ReservationError`. -/
theorem Commit_committed (tbl : PricingTable) (st : BillingState) (rid : String)
    (a b now : Int) (resv : Reservation)
    (hres : st.reservations rid = some resv) (hst : resv.status = .committed) :
    exceptOk (Commit tbl st rid a b now) = false
    ∧ (matchesReservationId rid = true → 0 < a → 0 ≤ b →
        Commit tbl st rid a b now = .error (.reservationError "Already committed")) := by
  constructor
  · simp only [Commit]
    repeat' split
    any_goals rfl
    all_goals simp_all [exceptOk]
  · intro hv ha hb
    simp only [Commit]
    rw [if_neg (by simp [hv]), if_neg (by omega), hres]
    simp [hst]

/-! Forward evaluation lemmas: each operation's result under explicit
preconditions. -/

/-- Evaluation of a successful Charge. -/
theorem Charge_eval (st : BillingState) (req : ChargeRequest) (now : Int)
    (hu : matchesUserId (resolveUser req.user_id) = true)
    (hm : matchesModelId req.model = true)
    (ht : 0 < req.tokens_used) (hc : 0 < req.cost)
    (hb : ¬ st.balances (resolveUser req.user_id) < req.cost) :
    Charge st req now =
      .ok (⟨st.balances (resolveUser req.user_id) - req.cost⟩,
        { st with
            balances := updateFn st.balances (resolveUser req.user_id)
              (st.balances (resolveUser req.user_id) - req.cost),
            log := st.log
              ++ [⟨resolveUser req.user_id, req.model, none, none, none,
                   some req.tokens_used, req.cost,
                   st.balances (resolveUser req.user_id) - req.cost, none, now⟩] }) := by
  simp only [Charge]
  rw [if_neg (by simp [hu]), if_neg (by simp [hm]), if_neg (by omega),
    if_neg (not_le.mpr hc), if_neg hb]

/-- Evaluation of a Charge rejected for insufficient balance. -/
theorem Charge_insufficient (st : BillingState) (req : ChargeRequest) (now : Int)
    (hu : matchesUserId (resolveUser req.user_id) = true)
    (hm : matchesModelId req.model = true)
    (ht : 0 < req.tokens_used) (hc : 0 < req.cost)
    (hb : st.balances (resolveUser req.user_id) < req.cost) :
    Charge st req now = .error (.balanceError "Insufficient balance") := by
  simp only [Charge]
  rw [if_neg (by simp [hu]), if_neg (by simp [hm]), if_neg (by omega),
    if_neg (not_le.mpr hc), if_pos hb]

/-- The reservation record stored by a successful Reserve (the `hmset` merge
keeps any `actual_*` fields already present under the same key). -/
def reserveRecord (st : BillingState) (req : ReserveRequest) (gid : String)
    (now : Int) (est : ℚ) : Reservation :=
  { user_id := resolveUser req.user_id, model := req.model,
    endpoint := req.endpoint, input_tokens := req.input_tokens_estimate,
    output_tokens := req.output_tokens_estimate, estimated_cost := est,
    status := .reserved, created_at := now,
    actual_cost := (st.reservations (reserveRid req gid now)).bind
      (fun r0 => r0.actual_cost),
    input_tokens_actual := (st.reservations (reserveRid req gid now)).bind
      (fun r0 => r0.input_tokens_actual),
    output_tokens_actual := (st.reservations (reserveRid req gid now)).bind
      (fun r0 => r0.output_tokens_actual),
    ttl := RESERVATION_TTL }

/-- Evaluation of a successful Reserve. -/
theorem Reserve_eval (tbl : PricingTable) (st : BillingState)
    (req : ReserveRequest) (gid : String) (now : Int) (est : ℚ)
    (hu : matchesUserId (resolveUser req.user_id) = true)
    (hm : matchesModelId req.model = true)
    (htok : ¬ (req.input_tokens_estimate ≤ 0 ∨ req.output_tokens_estimate < 0))
    (hcost : calculate_cost tbl req.model req.endpoint
      req.input_tokens_estimate req.output_tokens_estimate = .ok est)
    (hpos : 0 < est)
    (hb : ¬ st.balances (resolveUser req.user_id) < est) :
    Reserve tbl st req gid now =
      .ok (⟨reserveRid req gid now, est,
            st.balances (resolveUser req.user_id) - est⟩,
        { st with
            reservations := updateRes st.reservations (reserveRid req gid now)
              (some (reserveRecord st req gid now est)),
            balances := updateFn st.balances (resolveUser req.user_id)
              (st.balances (resolveUser req.user_id) - est) }) := by
  simp only [Reserve, hcost]
  rw [if_neg (by simp [hu]), if_neg (by simp [hm]), if_neg htok,
    if_neg (not_le.mpr hpos), if_neg hb]
  rfl

/-- Evaluation of a Reserve rejected for insufficient balance. -/
theorem Reserve_insufficient (tbl : PricingTable) (st : BillingState)
    (req : ReserveRequest) (gid : String) (now : Int) (est : ℚ)
    (hu : matchesUserId (resolveUser req.user_id) = true)
    (hm : matchesModelId req.model = true)
    (htok : ¬ (req.input_tokens_estimate ≤ 0 ∨ req.output_tokens_estimate < 0))
    (hcost : calculate_cost tbl req.model req.endpoint
      req.input_tokens_estimate req.output_tokens_estimate = .ok est)
    (hpos : 0 < est)
    (hb : st.balances (resolveUser req.user_id) < est) :
    Reserve tbl st req gid now = .error (.balanceError "Insufficient balance") := by
  simp only [Reserve, hcost]
  rw [if_neg (by simp [hu]), if_neg (by simp [hm]), if_neg htok,
    if_neg (not_le.mpr hpos), if_pos hb]

/-- Evaluation of a successful Commit. -/
theorem Commit_eval (tbl : PricingTable) (st : BillingState) (rid : String)
    (a b now : Int) (resv : Reservation) (cost : ℚ)
    (hv : matchesReservationId rid = true) (ha : 0 < a) (hb' : 0 ≤ b)
    (hres : st.reservations rid = some resv)
    (hstat : resv.status ≠ .committed)
    (hcost : calculate_cost tbl resv.model resv.endpoint a b = .ok cost) :
    Commit tbl st rid a b now =
      .ok (⟨cost, st.balances resv.user_id + (resv.estimated_cost - cost)⟩,
        { st with
            balances := updateFn st.balances resv.user_id
              (st.balances resv.user_id + (resv.estimated_cost - cost)),
            reservations := updateRes st.reservations rid
              (some { resv with status := .committed,
                                actual_cost := some cost,
                                input_tokens_actual := some a,
                                output_tokens_actual := some b,
                                ttl := 86400 }),
            log := st.log
              ++ [⟨resv.user_id, resv.model, some resv.endpoint, some a,
                   some b, none, cost,
                   st.balances resv.user_id + (resv.estimated_cost - cost),
                   some rid, now⟩] }) := by
  simp only [Commit, hres, hcost]
  rw [if_neg (by simp [hv]), if_neg (by omega), if_neg hstat]

/-- Evaluation of a successful AdjustBalance. -/
theorem AdjustBalance_eval (st : BillingState) (u : String) (amt : ℚ)
    (reason : String) (now : Int)
    (hu : matchesUserId u = true) (h1 : 0 < amt) (h2 : amt < 1000000) :
    AdjustBalance st u amt reason now =
      .ok (⟨st.balances u + amt⟩,
        { st with
            balances := updateFn st.balances u (st.balances u + amt),
            adjustments := st.adjustments
              ++ [⟨u, amt, (if reason = "" then "manual_adjustment" else reason),
                   now⟩] }) := by
  simp only [AdjustBalance]
  rw [if_neg (by simp [hu]), if_neg (by push_neg; exact ⟨h1, h2⟩)]

/-! Concrete cost evaluations shared by several witnesses. -/

theorem cost_chat_1000_500 :
    calculate_cost demoPricing "gpt-4o" "chat" 1000 500 = .ok (1 / 80) := by
  rw [calculate_cost_chat demoPricing "gpt-4o" ⟨some 5, some 15, some (1 / 10)⟩
    5 15 1000 500 rfl rfl rfl]
  have h : quantize5 ((((1000 : Int) : ℚ) * 5 + ((500 : Int) : ℚ) * 15) / 1000000)
      = ((1250 : ℤ) : ℚ) / 100000 := by
    apply quantize5_eval <;> norm_num
  rw [h]
  norm_num

theorem cost_chat_950_480 :
    calculate_cost demoPricing "gpt-4o" "chat" 950 480 = .ok (239 / 20000) := by
  rw [calculate_cost_chat demoPricing "gpt-4o" ⟨some 5, some 15, some (1 / 10)⟩
    5 15 950 480 rfl rfl rfl]
  have h : quantize5 ((((950 : Int) : ℚ) * 5 + ((480 : Int) : ℚ) * 15) / 1000000)
      = ((1195 : ℤ) : ℚ) / 100000 := by
    apply quantize5_eval <;> norm_num
  rw [h]
  norm_num

theorem cost_chat_2000000_1500000 :
    calculate_cost demoPricing "gpt-4o" "chat" 2000000 1500000 = .ok (65 / 2) := by
  rw [calculate_cost_chat demoPricing "gpt-4o" ⟨some 5, some 15, some (1 / 10)⟩
    5 15 2000000 1500000 rfl rfl rfl]
  have h : quantize5
      ((((2000000 : Int) : ℚ) * 5 + ((1500000 : Int) : ℚ) * 15) / 1000000)
      = ((3250000 : ℤ) : ℚ) / 100000 := by
    apply quantize5_eval <;> norm_num
  rw [h]
  norm_num

/-- C4: for a model with chat prices present, `calculate_cost` on the chat
endpoint returns `(input × p_in + output × p_out) / 1,000,000` quantized
half-up to five fractional digits, and on the embed endpoint
`input × p_embed / 1,000,000` so quantized; every returned cost has at most
five fractional digits, and the quantizer rounds the tie 0.000005 up to
0.00001. -/
theorem cost_formula_halfup (tbl : PricingTable) (model : String)
    (mp : ModelPricing) (pin pout pemb : ℚ) (input_t output_t : Int)
    (hm : lookupModel tbl model = some mp)
    (hin : mp.chat_input = some pin) (hout : mp.chat_output = some pout)
    (hemb : mp.embed = some pemb)
    (_hpos : 0 < input_t) (_hnn : 0 ≤ output_t) :
    calculate_cost tbl model "chat" input_t output_t
      = .ok (quantize5 ((input_t * pin + output_t * pout) / 1000000))
    ∧ calculate_cost tbl model "embed" input_t output_t
      = .ok (quantize5 ((input_t * pemb) / 1000000))
    ∧ (∀ q : ℚ, calculate_cost tbl model "chat" input_t output_t = .ok q →
        ∃ n : ℤ, q = (n : ℚ) / 100000)
    ∧ (∀ q : ℚ, calculate_cost tbl model "embed" input_t output_t = .ok q →
        ∃ n : ℤ, q = (n : ℚ) / 100000)
    ∧ quantize5 (5 / 1000000) = 1 / 100000 := by
  have h1 := calculate_cost_chat tbl model mp pin pout input_t output_t hm hin hout
  have h2 := calculate_cost_embed tbl model mp pemb input_t output_t hm hemb
  refine ⟨h1, h2, ?_, ?_, ?_⟩
  · intro q hq
    rw [h1] at hq
    injection hq with hq
    exact hq ▸ quantize5_denom _
  · intro q hq
    rw [h2] at hq
    injection hq with hq
    exact hq ▸ quantize5_denom _
  · have h := quantize5_eval (5 / 1000000) 1 (by norm_num) (by norm_num) (by norm_num)
    rw [h]
    norm_num

/-- Witness for C4 at the specification's scenario-1 inputs. -/
theorem cost_formula_halfup_witness :
    calculate_cost demoPricing "gpt-4o" "chat" 1000 500
      = .ok (quantize5 ((((1000 : Int) : ℚ) * 5 + ((500 : Int) : ℚ) * 15) / 1000000))
    ∧ quantize5 (5 / 1000000) = 1 / 100000 := by
  have h := cost_formula_halfup demoPricing "gpt-4o"
    ⟨some 5, some 15, some (1 / 10)⟩ 5 15 (1 / 10) 1000 500
    rfl rfl rfl rfl (by decide) (by decide)
  exact ⟨h.1, h.2.2.2.2⟩

/-- C7: `AdjustBalance` succeeds only with `0 < amount_usd < 1,000,000`; on
success the new balance is the old balance plus the delta, so accepted deltas
are strictly positive and a successful adjustment never decreases a
balance. Conversely, every in-range delta on a valid user id is accepted. -/
theorem adjust_positive_only :
    (∀ st u amt reason now res st',
        AdjustBalance st u amt reason now = .ok (res, st') →
        0 < amt ∧ amt < 1000000
        ∧ res.new_balance_usd = st.balances u + amt
        ∧ st'.balances u = st.balances u + amt
        ∧ st.balances u ≤ st'.balances u)
    ∧ (∀ st u amt reason now, matchesUserId u = true →
        0 < amt → amt < 1000000 →
        exceptOk (AdjustBalance st u amt reason now) = true) := by
  constructor
  · intro st u amt reason now res st' h
    obtain ⟨hv, h1, h2, h3, hbal, -⟩ := AdjustBalance_ok_inv st u amt reason now res st' h
    have hb : st'.balances u = st.balances u + amt := by
      rw [hbal, updateFn_same, h3]
    exact ⟨h1, h2, h3, hb, by rw [hb]; linarith⟩
  · intro st u amt reason now hu h1 h2
    rw [AdjustBalance_eval st u amt reason now hu h1 h2]
    rfl

/-- Witness for C7: a concrete accepted adjustment of +5 on balance 3. -/
theorem adjust_positive_only_witness :
    (withBalance "usr-1" 3).balances "usr-1"
      ≤ (applyOp demoPricing (withBalance "usr-1" 3)
          (.adjust "usr-1" 5 "promo" 7)).balances "usr-1"
    ∧ exceptOk (AdjustBalance (withBalance "usr-1" 3) "usr-1" 5 "promo" 7) = true := by
  have heval := AdjustBalance_eval (withBalance "usr-1" 3) "usr-1" 5 "promo" 7
    (by decide) (by norm_num) (by norm_num)
  constructor
  · have h1 := (adjust_positive_only.1 _ _ _ _ _ _ _ heval).2.2.2.2
    simpa [applyOp, heval] using h1
  · exact adjust_positive_only.2 _ "usr-1" 5 "promo" 7 (by decide)
      (by norm_num) (by norm_num)

/-- C10: an empty `user_id` is replaced by the literal `"anonymous"` (which
passes the user-id validator) in Charge, Reserve and GetBalance, so those
calls act on the shared anonymous account; AdjustBalance performs no such
substitution and rejects an empty `user_id`. -/
theorem anonymous_default :
    (∀ st req now, req.user_id = "" →
        Charge st req now = Charge st { req with user_id := "anonymous" } now)
    ∧ (∀ tbl st req gid now, req.user_id = "" →
        Reserve tbl st req gid now
          = Reserve tbl st { req with user_id := "anonymous" } gid now)
    ∧ (∀ rates st, GetBalance rates st "" = GetBalance rates st "anonymous")
    ∧ matchesUserId "anonymous" = true
    ∧ (∀ st amt reason now,
        AdjustBalance st "" amt reason now
          = .error (.validationError ("Invalid user_id format: " ++ ""))) := by
  refine ⟨?_, ?_, ?_, by decide, ?_⟩
  · intro st req now h
    simp [Charge, resolveUser, h]
  · intro tbl st req gid now h
    simp [Reserve, resolveUser, reserveRid, h]
  · intro rates st
    simp [GetBalance, resolveUser]
  · intro st amt reason now
    simp only [AdjustBalance]
    rw [if_pos (by decide)]

/-- Witness for C10: the substitution at a concrete request, and the
concrete rejection of an empty user id by AdjustBalance. -/
theorem anonymous_default_witness :
    Charge (withBalance "anonymous" 7) ⟨"", "gpt-4o", 10, 1⟩ 5
      = Charge (withBalance "anonymous" 7) ⟨"anonymous", "gpt-4o", 10, 1⟩ 5
    ∧ AdjustBalance emptyState "" 5 "promo" 0
      = .error (.validationError ("Invalid user_id format: " ++ "")) := by
  exact ⟨anonymous_default.1 _ _ _ rfl, anonymous_default.2.2.2.2 _ _ _ _⟩

/-- C2 (counter-evidence): the pricing lookup of the source has an implicit
default. For a model absent from the table, `get_price` returns the fallback
unit prices 10.00 / 30.00 (chat) and 0.13 (embed) instead of failing, and
`calculate_cost` therefore prices the unknown model; the lookup does not
fail. -/
theorem pricing_default_fallback :
    lookupModel demoPricing "no-such-model" = none
    ∧ get_price demoPricing "no-such-model" "chat"
        = .ok (.chat (10 / 1000000) (30 / 1000000))
    ∧ get_price demoPricing "no-such-model" "embed"
        = .ok (.embed ((13 / 100) / 1000000))
    ∧ calculate_cost demoPricing "no-such-model" "chat" 1000 500 = .ok (1 / 40)
    ∧ exceptOk (get_price demoPricing "no-such-model" "chat") = true := by
  have hgp : get_price demoPricing "no-such-model" "chat"
      = .ok (.chat (10 / 1000000) (30 / 1000000)) := rfl
  refine ⟨rfl, hgp, rfl, ?_, by rw [hgp]; rfl⟩
  have hc : calculate_cost demoPricing "no-such-model" "chat" 1000 500
      = .ok (quantize5 (((1000 : Int) : ℚ) * (10 / 1000000)
          + ((500 : Int) : ℚ) * (30 / 1000000))) := by
    simp [calculate_cost, hgp]
  rw [hc]
  have harg : ((1000 : Int) : ℚ) * (10 / 1000000)
      + ((500 : Int) : ℚ) * (30 / 1000000) = 1 / 40 := by norm_num
  rw [harg]
  have h := quantize5_eval (1 / 40) 2500 (by norm_num) (by norm_num) (by norm_num)
  rw [h]
  norm_num

/-- Nonempty user ids pass through the anonymous substitution unchanged. -/
theorem resolveUser_eq (s : String) (h : ¬ s = "") : resolveUser s = s :=
  if_neg h

/-- C5: a Reserve with valid inputs either fails with the insufficient-balance
`BalanceError` leaving the state unchanged, or debits exactly the estimated
cost and stores a `reserved` record with TTL 600 in the same step. -/
theorem reserve_debits_or_rejects (tbl : PricingTable) (st : BillingState)
    (req : ReserveRequest) (gid : String) (now : Int) (est : ℚ)
    (hu : matchesUserId (resolveUser req.user_id) = true)
    (hm : matchesModelId req.model = true)
    (hin : 0 < req.input_tokens_estimate)
    (hout : 0 ≤ req.output_tokens_estimate)
    (hcost : calculate_cost tbl req.model req.endpoint
      req.input_tokens_estimate req.output_tokens_estimate = .ok est)
    (hpos : 0 < est) :
    (st.balances (resolveUser req.user_id) < est →
        Reserve tbl st req gid now = .error (.balanceError "Insufficient balance")
        ∧ applyOp tbl st (.reserve req gid now) = st)
    ∧ (est ≤ st.balances (resolveUser req.user_id) →
        ∃ st', Reserve tbl st req gid now
            = .ok (⟨reserveRid req gid now, est,
                    st.balances (resolveUser req.user_id) - est⟩, st')
          ∧ st'.balances (resolveUser req.user_id)
              = st.balances (resolveUser req.user_id) - est
          ∧ ∃ r, st'.reservations (reserveRid req gid now) = some r
              ∧ r.status = .reserved ∧ r.ttl = 600 ∧ r.estimated_cost = est
              ∧ r.user_id = resolveUser req.user_id) := by
  have htok : ¬ (req.input_tokens_estimate ≤ 0 ∨ req.output_tokens_estimate < 0) := by
    omega
  constructor
  · intro hlt
    have he := Reserve_insufficient tbl st req gid now est hu hm htok hcost hpos hlt
    exact ⟨he, by simp [applyOp, he]⟩
  · intro hge
    have he := Reserve_eval tbl st req gid now est hu hm htok hcost hpos (not_lt.mpr hge)
    refine ⟨_, he, ?_, ⟨reserveRecord st req gid now est, ?_, rfl, rfl, rfl, rfl⟩⟩
    · exact updateFn_same _ _ _
    · exact updateRes_same _ _ _

/-- Witness for C5: scenario 2 (balance 0.01 rejects the 0.0125 estimate) and
scenario 1 (balance 10 reserves 0.0125). -/
theorem reserve_debits_or_rejects_witness :
    (Reserve demoPricing (withBalance "usr-1" (1 / 100))
        ⟨"usr-1", "req-0001", "gpt-4o", "chat", 1000, 500⟩ "gen" 100
      = .error (.balanceError "Insufficient balance"))
    ∧ ∃ st', Reserve demoPricing (withBalance "usr-1" 10)
          ⟨"usr-1", "req-0001", "gpt-4o", "chat", 1000, 500⟩ "gen" 100
        = .ok (⟨reserveRid ⟨"usr-1", "req-0001", "gpt-4o", "chat", 1000, 500⟩ "gen" 100,
               1 / 80,
               (withBalance "usr-1" 10).balances "usr-1" - 1 / 80⟩, st')
        ∧ st'.balances "usr-1" = (withBalance "usr-1" 10).balances "usr-1" - 1 / 80 := by
  constructor
  · exact (reserve_debits_or_rejects demoPricing (withBalance "usr-1" (1 / 100))
      ⟨"usr-1", "req-0001", "gpt-4o", "chat", 1000, 500⟩ "gen" 100 (1 / 80)
      (by decide) (by decide) (by decide) (by decide) cost_chat_1000_500
      (by norm_num)).1
      (by norm_num [withBalance, emptyState, updateFn, resolveUser_eq "usr-1" (by decide)]) |>.1
  · obtain ⟨st', h1, h2, -⟩ := (reserve_debits_or_rejects demoPricing
      (withBalance "usr-1" 10)
      ⟨"usr-1", "req-0001", "gpt-4o", "chat", 1000, 500⟩ "gen" 100 (1 / 80)
      (by decide) (by decide) (by decide) (by decide) cost_chat_1000_500
      (by norm_num)).2
      (by norm_num [withBalance, emptyState, updateFn, resolveUser_eq "usr-1" (by decide)])
    exact ⟨st', h1, h2⟩

/-- C6: every successful Charge and Commit appends exactly one `billing:log`
entry whose `cost_usd` is the operation's cost and whose `balance_usd` is the
post-balance of the charged user; no failing Charge or Commit appends an
entry. -/
theorem log_faithful :
    (∀ st req now res st', Charge st req now = .ok (res, st') →
        st'.log = st.log
          ++ [⟨resolveUser req.user_id, req.model, none, none, none,
               some req.tokens_used, req.cost, res.new_balance, none, now⟩]
        ∧ res.new_balance = st'.balances (resolveUser req.user_id))
    ∧ (∀ tbl st rid a b now res st', Commit tbl st rid a b now = .ok (res, st') →
        ∃ entry : LogEntry, st'.log = st.log ++ [entry]
          ∧ entry.cost_usd = res.final_cost
          ∧ entry.balance_usd = res.remaining_balance
          ∧ res.remaining_balance = st'.balances entry.user_id)
    ∧ (∀ tbl st req now e, Charge st req now = .error e →
        (applyOp tbl st (.charge req now)).log = st.log)
    ∧ (∀ tbl st rid a b now e, Commit tbl st rid a b now = .error e →
        (applyOp tbl st (.commit rid a b now)).log = st.log) := by
  refine ⟨?_, ?_, ?_, ?_⟩
  · intro st req now res st' h
    obtain ⟨hnb, hbal, -, -, hlog⟩ := Charge_ok_inv st req now res st' h
    refine ⟨hlog, ?_⟩
    rw [hbal, updateFn_same]
  · intro tbl st rid a b now res st' h
    obtain ⟨resv, -, -, -, -, -, hbal, hlog, -⟩ :=
      Commit_ok_inv tbl st rid a b now res st' h
    refine ⟨_, hlog, rfl, rfl, ?_⟩
    rw [hbal]
    exact (updateFn_same _ _ _).symm
  · intro tbl st req now e h
    simp [applyOp, h]
  · intro tbl st rid a b now e h
    simp [applyOp, h]

/-! Shared concrete scenario: user `usr-1` with balance 10 reserves the
scenario-1 estimate (1000 in, 500 out on `gpt-4o` chat, estimate 0.0125). -/

/-- Scenario Reserve request. -/
def req1 : ReserveRequest := ⟨"usr-1", "req-0001", "gpt-4o", "chat", 1000, 500⟩

/-- Reservation id produced for `req1` at time 100. -/
def rid1 : String := reserveRid req1 "gen" 100

/-- Funded initial state of the scenario. -/
def st10 : BillingState := withBalance "usr-1" 10

/-- State after the scenario Reserve. -/
def stR : BillingState := applyOp demoPricing st10 (.reserve req1 "gen" 100)

theorem rid1_eq : rid1 = "res:usr-1:req-0001:100" := by decide

theorem reserve1_eval : Reserve demoPricing st10 req1 "gen" 100
    = .ok (⟨rid1, 1 / 80, st10.balances "usr-1" - 1 / 80⟩,
      { st10 with
          reservations := updateRes st10.reservations rid1
            (some (reserveRecord st10 req1 "gen" 100 (1 / 80))),
          balances := updateFn st10.balances "usr-1"
            (st10.balances "usr-1" - 1 / 80) }) := by
  exact Reserve_eval demoPricing st10 req1 "gen" 100 (1 / 80) (by decide) (by decide)
    (by decide) cost_chat_1000_500 (by norm_num)
    (by norm_num [st10, withBalance, emptyState, updateFn, req1, resolveUser_eq "usr-1" (by decide)])

theorem stR_res : stR.reservations rid1
    = some (reserveRecord st10 req1 "gen" 100 (1 / 80)) := by
  simp only [stR, applyOp, reserve1_eval]
  exact updateRes_same _ _ _

theorem stR_bal : stR.balances "usr-1" = 10 - 1 / 80 := by
  simp only [stR, applyOp, reserve1_eval]
  rw [updateFn_same]
  norm_num [st10, withBalance, emptyState, updateFn, req1, resolveUser_eq "usr-1" (by decide)]

/-- Witness for C6: the scenario Charge and the scenario-1 Commit, with the
log entry spelled out. -/
theorem log_faithful_witness :
    ((applyOp demoPricing st10 (.charge ⟨"usr-1", "gpt-4o", 10, 1⟩ 5)).log
      = st10.log ++ [⟨"usr-1", "gpt-4o", none, none, none, some 10, 1,
                      st10.balances "usr-1" - 1, none, 5⟩])
    ∧ ∃ res : CommitResult, ∃ st' : BillingState,
        Commit demoPricing stR rid1 950 480 110 = .ok (res, st')
        ∧ ∃ entry : LogEntry, st'.log = stR.log ++ [entry]
          ∧ entry.cost_usd = res.final_cost
          ∧ entry.balance_usd = res.remaining_balance
          ∧ res.remaining_balance = st'.balances entry.user_id := by
  constructor
  · have heval := Charge_eval st10 ⟨"usr-1", "gpt-4o", 10, 1⟩ 5 (by decide)
      (by decide) (by decide) (by norm_num)
      (by norm_num [st10, withBalance, emptyState, updateFn, req1, resolveUser_eq "usr-1" (by decide)])
    have h := (log_faithful.1 _ _ _ _ _ heval).1
    rw [resolveUser_eq "usr-1" (by decide)] at h
    simp only [applyOp, heval]
    exact h
  · have hcost : calculate_cost demoPricing
        (reserveRecord st10 req1 "gen" 100 (1 / 80)).model
        (reserveRecord st10 req1 "gen" 100 (1 / 80)).endpoint 950 480
        = .ok (239 / 20000) := by
      simp only [reserveRecord, req1]
      exact cost_chat_950_480
    have heval := Commit_eval demoPricing stR rid1 950 480 110
      (reserveRecord st10 req1 "gen" 100 (1 / 80)) (239 / 20000)
      (by rw [rid1_eq]; decide) (by norm_num) (by norm_num)
      stR_res (by simp [reserveRecord]) hcost
    refine ⟨_, _, heval, ?_⟩
    exact log_faithful.2.1 demoPricing stR rid1 950 480 110 _ _ heval

/-- C1 (counter-evidence): the core has no non-negativity check on Commit.
After the scenario Reserve (balance 10, estimate 0.0125), a Commit whose
actual usage prices at 32.50 is accepted and leaves the balance at −22.5. -/
theorem commit_accepts_negative_balance :
    exceptOk (Commit demoPricing stR rid1 2000000 1500000 200) = true
    ∧ (applyOp demoPricing stR (.commit rid1 2000000 1500000 200)).balances "usr-1"
        = -(45 / 2)
    ∧ (-(45 / 2) : ℚ) < 0
    ∧ st10.balances "usr-1" = 10 := by
  have hcost : calculate_cost demoPricing
      (reserveRecord st10 req1 "gen" 100 (1 / 80)).model
      (reserveRecord st10 req1 "gen" 100 (1 / 80)).endpoint 2000000 1500000
      = .ok (65 / 2) := by
    simpa [reserveRecord, req1] using cost_chat_2000000_1500000
  have heval := Commit_eval demoPricing stR rid1 2000000 1500000 200
    (reserveRecord st10 req1 "gen" 100 (1 / 80)) (65 / 2)
    (by rw [rid1_eq]; decide) (by norm_num) (by norm_num)
    stR_res (by simp [reserveRecord]) hcost
  refine ⟨by rw [heval]; rfl, ?_, by norm_num, ?_⟩
  · have huser : (reserveRecord st10 req1 "gen" 100 (1 / 80)).user_id = "usr-1" := by
      simp [reserveRecord, req1, resolveUser]
    simp only [applyOp, heval]
    rw [huser, updateFn_same, stR_bal]
    norm_num [reserveRecord]
  · norm_num [st10, withBalance, emptyState, updateFn, req1, resolveUser_eq "usr-1" (by decide)]

/-- C9 (counterexample): two low-balance evaluations one second apart each
emit an alert, because `check_user_balance` calls `trigger_alert` directly
without consulting the cooldown. -/
theorem low_balance_alert_no_cooldown :
    (check_user_balance (check_user_balance monInit "usr-1" 5 1000) "usr-1" 5 1001).alerts
      = [⟨"Low balance for user usr-1", 1000⟩, ⟨"Low balance for user usr-1", 1001⟩]
    ∧ (1001 : Int) - 1000 < monInit.metrics.alert_cooldown := by
  constructor
  · decide
  · decide

/-- C9 (amended): the monitoring aggregator enforces no alert cooldown at
all. `check_user_balance` and `check_usage` call `trigger_alert` directly and
emit an alert on every evaluation whose threshold condition holds — at
arbitrarily close instants — and each `trigger_alert` appends exactly one
entry; the error-rate path emits no alert ever, because `check_alerts` raises
`AttributeError` on the nonexistent `self.alert_cooldown` before any
threshold logic, and `log_transaction` deadlocks re-acquiring its
non-reentrant lock, so no evaluation through that path completes. -/
theorem alerts_without_cooldown :
    (∀ m u bal now, bal < m.low_balance →
        check_user_balance m u bal now
          = trigger_alert m ("Low balance for user " ++ u) now)
    ∧ (∀ m u bal now, ¬ bal < m.low_balance →
        check_user_balance m u bal now = m)
    ∧ (∀ m u tok now, m.high_usage < tok →
        check_usage m u tok now
          = trigger_alert m ("High usage for user " ++ u) now)
    ∧ (∀ m msg now, (trigger_alert m msg now).alerts = m.alerts ++ [⟨msg, now⟩]
        ∧ (trigger_alert m msg now).metrics.last_alert = now)
    ∧ (∀ (t1 t2 : Int) (u : String) (bal : ℚ), bal < monInit.low_balance →
        (check_user_balance (check_user_balance monInit u bal t1) u bal t2).alerts
          = [⟨"Low balance for user " ++ u, t1⟩,
             ⟨"Low balance for user " ++ u, t2⟩])
    ∧ (∀ m now, check_alerts m now = .error (.attributeError "alert_cooldown"))
    ∧ (∀ m tx amt succ now, log_transaction m tx amt succ now = .error .deadlock) := by
  refine ⟨?_, ?_, ?_, ?_, ?_, fun _ _ => rfl, fun _ _ _ _ _ => rfl⟩
  · intro m u bal now h
    simp [check_user_balance, h]
  · intro m u bal now h
    simp [check_user_balance, h]
  · intro m u tok now h
    simp [check_usage, h]
  · intro m msg now
    exact ⟨rfl, rfl⟩
  · intro t1 t2 u bal h
    have h1 : check_user_balance monInit u bal t1
        = trigger_alert monInit ("Low balance for user " ++ u) t1 := by
      simp [check_user_balance, h]
    rw [h1]
    have h10 : bal < 10 := by simpa [monInit] using h
    simp [check_user_balance, trigger_alert, monInit, h10]

/-- Witness for C9 at concrete monitoring states and times one second
apart. -/
theorem alerts_without_cooldown_witness :
    check_user_balance monInit "usr-2" 5 70
        = trigger_alert monInit ("Low balance for user " ++ "usr-2") 70
    ∧ check_user_balance monInit "usr-2" 50 70 = monInit
    ∧ check_usage monInit "usr-2" 2000000 70
        = trigger_alert monInit ("High usage for user " ++ "usr-2") 70
    ∧ (check_user_balance (check_user_balance monInit "usr-2" 5 100) "usr-2" 5 101).alerts
        = [⟨"Low balance for user " ++ "usr-2", 100⟩,
           ⟨"Low balance for user " ++ "usr-2", 101⟩]
    ∧ check_alerts monInit 100 = .error (.attributeError "alert_cooldown")
    ∧ log_transaction monInit "charge" (some 1) false 50 = .error .deadlock := by
  refine ⟨alerts_without_cooldown.1 monInit "usr-2" 5 70 (by norm_num [monInit]),
    alerts_without_cooldown.2.1 monInit "usr-2" 50 70 (by norm_num [monInit]),
    alerts_without_cooldown.2.2.1 monInit "usr-2" 2000000 70 (by decide),
    alerts_without_cooldown.2.2.2.2.1 100 101 "usr-2" 5 (by norm_num [monInit]),
    alerts_without_cooldown.2.2.2.2.2.1 monInit 100,
    alerts_without_cooldown.2.2.2.2.2.2 monInit "charge" (some 1) false 50⟩

/-! Dictionary lemmas for the exchange-rate table. -/

theorem lookupRate_setRate_same (rs : List (String × ℚ)) (c : String) (q : ℚ) :
    lookupRate (setRate rs c q) c = some q := by
  induction rs with
  | nil => simp [setRate, lookupRate]
  | cons p rest ih =>
    obtain ⟨c', q'⟩ := p
    by_cases h : c' = c
    · simp [setRate, lookupRate, h]
    · simp [setRate, lookupRate, h, ih]

theorem lookupRate_setRate_other (rs : List (String × ℚ)) (c : String) (q : ℚ)
    (x : String) (h : x ≠ c) :
    lookupRate (setRate rs c q) x = lookupRate rs x := by
  induction rs with
  | nil => simp [setRate, lookupRate, Ne.symm h]
  | cons p rest ih =>
    obtain ⟨c', q'⟩ := p
    by_cases hc : c' = c
    · subst hc
      simp [setRate, lookupRate, Ne.symm h]
    · by_cases hx : c' = x
      · simp [setRate, lookupRate, hc, hx, h]
      · simp [setRate, lookupRate, hc, hx, ih]

theorem lookupRate_removeRate_other (rs : List (String × ℚ)) (c : String)
    (x : String) (h : x ≠ c) :
    lookupRate (removeRate rs c) x = lookupRate rs x := by
  induction rs with
  | nil => simp [removeRate, lookupRate]
  | cons p rest ih =>
    obtain ⟨c', q'⟩ := p
    by_cases hc : c' = c
    · subst hc
      simp [removeRate, lookupRate, Ne.symm h]
    · by_cases hx : c' = x
      · simp [removeRate, lookupRate, hc, hx, h]
      · simp [removeRate, lookupRate, hc, hx, ih]

/-- Any fold of `fetchStep` preserves a USD pin present in the accumulator. -/
theorem fetchStep_fold_usd (m : ExchangeManager) (feed : String → Option ℚ) :
    ∀ (sup : List String) (acc : List (String × ℚ)),
      lookupRate acc "USD" = some 1 →
      lookupRate (sup.foldl (fetchStep m feed) acc) "USD" = some 1 := by
  intro sup
  induction sup with
  | nil => intro acc h; simpa using h
  | cons c rest ih =>
    intro acc h
    simp only [List.foldl_cons]
    apply ih
    by_cases hUSD : c = "USD"
    · simp [fetchStep, hUSD, h]
    · by_cases hUSDT : c = "USDT"
      · rw [fetchStep, if_neg hUSD, if_pos hUSDT, hUSDT,
          lookupRate_setRate_other _ _ _ _ (by decide)]
        exact h
      · rw [fetchStep, if_neg hUSD, if_neg hUSDT]
        cases feed c with
        | some q => rw [lookupRate_setRate_other _ _ _ _ (Ne.symm hUSD)]; exact h
        | none => rw [lookupRate_setRate_other _ _ _ _ (Ne.symm hUSD)]; exact h

/-- Any fold of `fetchStep` over a supported list containing USDT ends with
the USDT pin. -/
theorem fetchStep_fold_usdt (m : ExchangeManager) (feed : String → Option ℚ) :
    ∀ (sup : List String) (acc : List (String × ℚ)),
      ("USDT" ∈ sup ∨ lookupRate acc "USDT" = some 1) →
      lookupRate (sup.foldl (fetchStep m feed) acc) "USDT" = some 1 := by
  intro sup
  induction sup with
  | nil =>
    intro acc h
    simpa using h.resolve_left (by simp)
  | cons c rest ih =>
    intro acc h
    simp only [List.foldl_cons]
    by_cases hc : c = "USDT"
    · subst hc
      apply ih
      right
      rw [fetchStep, if_neg (by decide), if_pos rfl]
      exact lookupRate_setRate_same _ _ _
    · apply ih
      rcases h with hmem | hacc
      · rcases List.mem_cons.mp hmem with h1 | h2
        · exact absurd h1.symm hc
        · exact Or.inl h2
      · right
        by_cases hUSD : c = "USD"
        · simpa [fetchStep, hUSD] using hacc
        · rw [fetchStep, if_neg hUSD, if_neg hc]
          cases feed c with
          | some q =>
            rw [lookupRate_setRate_other _ _ _ _ (fun e => hc e.symm)]
            exact hacc
          | none =>
            rw [lookupRate_setRate_other _ _ _ _ (fun e => hc e.symm)]
            exact hacc

/-- Sequences of exchange operations that never use the single-currency
update. -/
def noUpdateOps (ops : List ExchangeOp) : Prop :=
  ∀ c q now, ExchangeOp.update c q now ∉ ops

/-- Inversion for a successful `add_currency`. -/
theorem add_currency_ok_inv (m : ExchangeManager) (c : String) (q : ℚ)
    (m' : ExchangeManager) (h : add_currency m c q = .ok m') :
    lookupRate m.rates c = none ∧ m'.rates = setRate m.rates c q
    ∧ m'.supported = m.supported ++ [c] := by
  simp only [add_currency] at h
  split at h
  · simp at h
  · split at h
    · simp at h
    · rename_i hmiss _
      injection h with h
      subst h
      exact ⟨Option.not_isSome_iff_eq_none.mp (by simpa using hmiss), rfl, rfl⟩

/-- Inversion for a successful `remove_currency`. -/
theorem remove_currency_ok_inv (m : ExchangeManager) (c : String)
    (m' : ExchangeManager) (h : remove_currency m c = .ok m') :
    c ≠ "USD" ∧ c ≠ "USDT" ∧ m'.rates = removeRate m.rates c
    ∧ m'.supported = m.supported.erase c := by
  simp only [remove_currency] at h
  split at h
  · simp at h
  · rename_i hbase
    push_neg at hbase
    split at h
    · simp at h
    · injection h with h
      subst h
      exact ⟨hbase.1, hbase.2, rfl, rfl⟩

/-- The pinned-currency property is preserved by add, remove and fetch. -/
theorem pinned_preserved (m : ExchangeManager) (op : ExchangeOp)
    (hp : pinned m) (hop : ∀ c q now, op ≠ .update c q now) :
    pinned (applyExchangeOp m op) := by
  obtain ⟨hUSD, hUSDT, hsup⟩ := hp
  cases op with
  | add c q =>
    simp only [applyExchangeOp]
    cases hE : add_currency m c q with
    | error e => exact ⟨hUSD, hUSDT, hsup⟩
    | ok m' =>
      obtain ⟨hmiss, hr, hs⟩ := add_currency_ok_inv m c q m' hE
      have hcUSD : c ≠ "USD" := by
        intro e
        rw [e, hUSD] at hmiss
        simp at hmiss
      have hcUSDT : c ≠ "USDT" := by
        intro e
        rw [e, hUSDT] at hmiss
        simp at hmiss
      refine ⟨?_, ?_, ?_⟩
      · rw [hr, lookupRate_setRate_other _ _ _ _ (Ne.symm hcUSD)]; exact hUSD
      · rw [hr, lookupRate_setRate_other _ _ _ _ (Ne.symm hcUSDT)]; exact hUSDT
      · rw [hs]; exact List.mem_append_left _ hsup
  | remove c =>
    simp only [applyExchangeOp]
    cases hE : remove_currency m c with
    | error e => exact ⟨hUSD, hUSDT, hsup⟩
    | ok m' =>
      obtain ⟨h1, h2, hr, hs⟩ := remove_currency_ok_inv m c m' hE
      refine ⟨?_, ?_, ?_⟩
      · rw [hr, lookupRate_removeRate_other _ _ _ (Ne.symm h1)]; exact hUSD
      · rw [hr, lookupRate_removeRate_other _ _ _ (Ne.symm h2)]; exact hUSDT
      · rw [hs]; exact (List.mem_erase_of_ne (Ne.symm h2)).mpr hsup
  | update c q now => exact absurd rfl (hop c q now)
  | fetch feed now =>
    refine ⟨?_, ?_, hsup⟩
    · exact fetchStep_fold_usd m feed m.supported [("USD", 1)] (by decide)
    · exact fetchStep_fold_usdt m feed m.supported [("USD", 1)] (Or.inl hsup)

/-- C8 (counterexample): `update_currency_rate` has no USD/USDT guard — it
accepts USD and overwrites the pinned rate with 2. -/
theorem update_unpins_usd :
    exceptOk (update_currency_rate ⟨defaultRates, defaultSupported, 0⟩ "USD" 2 1000)
      = true
    ∧ lookupRate (applyExchangeOp ⟨defaultRates, defaultSupported, 0⟩
        (.update "USD" 2 1000)).rates "USD" = some 2
    ∧ pinned ⟨defaultRates, defaultSupported, 0⟩
    ∧ ¬ pinned (applyExchangeOp ⟨defaultRates, defaultSupported, 0⟩
        (.update "USD" 2 1000)) := by
  have h : update_currency_rate ⟨defaultRates, defaultSupported, 0⟩ "USD" 2 1000
      = .ok ⟨setRate defaultRates "USD" 2, defaultSupported, 1000⟩ := by
    simp only [update_currency_rate]
    rw [if_neg (by decide)]
  refine ⟨by rw [h]; rfl, ?_, ?_, ?_⟩
  · simp only [applyExchangeOp, h]
    decide
  · refine ⟨by decide, by decide, by decide⟩
  · simp only [applyExchangeOp, h]
    intro hp
    have := hp.1
    revert this
    decide

/-- C8 (amended): under AddCurrency, RemoveCurrency and the feed refresh the
USD and USDT rates stay pinned to 1 and RemoveCurrency on USD or USDT always
fails; UpdateCurrencyRate, however, accepts USD/USDT and can overwrite the
pinned rates (see the counterexample). -/
theorem pinned_rates_invariant :
    (∀ m : ExchangeManager,
        remove_currency m "USD"
          = .error (.validationError "Cannot remove base currencies (USD, USDT)")
        ∧ remove_currency m "USDT"
          = .error (.validationError "Cannot remove base currencies (USD, USDT)"))
    ∧ (∀ (m : ExchangeManager) (ops : List ExchangeOp), pinned m →
        noUpdateOps ops → pinned (applyExchangeOps m ops)) := by
  constructor
  · intro m
    constructor
    · simp [remove_currency]
    · simp [remove_currency]
  · intro m ops
    induction ops generalizing m with
    | nil => intro hp _; exact hp
    | cons op rest ih =>
      intro hp hno
      have hop : ∀ c q now, op ≠ .update c q now := by
        intro c q now e
        exact hno c q now (e ▸ List.mem_cons_self op rest)
      have hrest : noUpdateOps rest := by
        intro c q now hmem
        exact hno c q now (List.mem_cons_of_mem _ hmem)
      exact ih _ (pinned_preserved m op hp hop) hrest

/-- Witness for C8: the invariant holds across a concrete add / remove /
fetch sequence from the default table. -/
theorem pinned_rates_invariant_witness :
    remove_currency ⟨defaultRates, defaultSupported, 0⟩ "USD"
      = .error (.validationError "Cannot remove base currencies (USD, USDT)")
    ∧ pinned (applyExchangeOps ⟨defaultRates, defaultSupported, 0⟩
        [.add "GEL" (7 / 2), .remove "EUR", .fetch (fun _ => none) 50]) := by
  constructor
  · exact (pinned_rates_invariant.1 ⟨defaultRates, defaultSupported, 0⟩).1
  · apply pinned_rates_invariant.2 ⟨defaultRates, defaultSupported, 0⟩
      [.add "GEL" (7 / 2), .remove "EUR", .fetch (fun _ => none) 50]
      ⟨by decide, by decide, by decide⟩
    intro c q now hmem
    simp at hmem

/-! Reservation-store preservation lemmas for the billing trace. -/

/-- The reservation stored under `rid` is committed. -/
def committedAt (st : BillingState) (rid : String) : Prop :=
  ∃ r, st.reservations rid = some r ∧ r.status = RStatus.committed

theorem committedAt_of_eq {st st' : BillingState} {rid : String}
    (he : st'.reservations rid = st.reservations rid)
    (h : committedAt st rid) : committedAt st' rid := by
  obtain ⟨r, hr, hs⟩ := h
  exact ⟨r, by rw [he, hr], hs⟩

theorem applyOp_charge_reservations (tbl : PricingTable) (st : BillingState)
    (req : ChargeRequest) (now : Int) (rid : String) :
    (applyOp tbl st (.charge req now)).reservations rid = st.reservations rid := by
  simp only [applyOp]
  split
  · rename_i r st' heq
    rw [(Charge_ok_inv _ _ _ _ _ heq).2.2.1]
  · rfl

theorem applyOp_adjust_reservations (tbl : PricingTable) (st : BillingState)
    (u : String) (amt : ℚ) (reason : String) (now : Int) (rid : String) :
    (applyOp tbl st (.adjust u amt reason now)).reservations rid
      = st.reservations rid := by
  simp only [applyOp]
  split
  · rename_i r st' heq
    rw [(AdjustBalance_ok_inv _ _ _ _ _ _ _ heq).2.2.2.2.2.1]
  · rfl

theorem applyOp_reserve_reservations_other (tbl : PricingTable)
    (st : BillingState) (req : ReserveRequest) (gid : String) (now : Int)
    (rid : String) (hne : rid ≠ reserveRid req gid now) :
    (applyOp tbl st (.reserve req gid now)).reservations rid
      = st.reservations rid := by
  simp only [applyOp]
  split
  · rename_i r st' heq
    obtain ⟨resv, -, -, -, -, -, -, -, hres, -, -, -⟩ :=
      Reserve_ok_inv _ _ _ _ _ _ _ heq
    rw [hres, updateRes_other _ _ _ _ hne]
  · rfl

theorem applyOp_commit_reservations_other (tbl : PricingTable)
    (st : BillingState) (rid' : String) (a b now : Int) (rid : String)
    (hne : rid ≠ rid') :
    (applyOp tbl st (.commit rid' a b now)).reservations rid
      = st.reservations rid := by
  simp only [applyOp]
  split
  · rename_i r st' heq
    obtain ⟨resv, -, -, -, -, hres, -, -, -⟩ := Commit_ok_inv _ _ _ _ _ _ _ _ heq
    rw [hres, updateRes_other _ _ _ _ hne]
  · rfl

theorem applyOp_commit_committed (tbl : PricingTable) (st : BillingState)
    (rid : String) (a b now : Int)
    (hok : exceptOk (Commit tbl st rid a b now) = true) :
    committedAt (applyOp tbl st (.commit rid a b now)) rid := by
  simp only [applyOp]
  cases hE : Commit tbl st rid a b now with
  | error e => rw [hE] at hok; simp [exceptOk] at hok
  | ok p =>
    obtain ⟨res, st'⟩ := p
    obtain ⟨resv, -, -, -, -, hres, -, -, -⟩ := Commit_ok_inv _ _ _ _ _ _ _ _ hE
    exact ⟨_, by rw [hres, updateRes_same], rfl⟩

theorem applyOp_commit_of_not_ok (tbl : PricingTable) (st : BillingState)
    (rid : String) (a b now : Int)
    (hnok : exceptOk (Commit tbl st rid a b now) = false) :
    applyOp tbl st (.commit rid a b now) = st := by
  simp only [applyOp]
  cases hE : Commit tbl st rid a b now with
  | error e => rfl
  | ok p => rw [hE] at hnok; simp [exceptOk] at hnok

theorem commit_not_ok_of_committedAt (tbl : PricingTable) (st : BillingState)
    (rid : String) (a b now : Int) (h : committedAt st rid) :
    exceptOk (Commit tbl st rid a b now) = false := by
  obtain ⟨r, hr, hs⟩ := h
  exact (Commit_committed tbl st rid a b now r hr hs).1

/-- Core induction: along any operation sequence in which no Reserve
re-derives an existing reservation id, a committed `rid` admits no further
successful Commit, and any `rid` admits at most one. -/
theorem commit_count_aux (tbl : PricingTable) :
    ∀ (ops : List BillingOp) (st : BillingState) (rid : String),
      reservesFresh tbl st ops →
      (committedAt st rid → commitSuccesses tbl st ops rid = 0)
      ∧ commitSuccesses tbl st ops rid ≤ 1 := by
  intro ops
  induction ops with
  | nil =>
    intro st rid _
    exact ⟨fun _ => rfl, by simp [commitSuccesses]⟩
  | cons op rest ih =>
    intro st rid hfresh
    simp only [reservesFresh] at hfresh
    obtain ⟨hf1, hf2⟩ := hfresh
    cases op with
    | charge req now =>
      have hcnt : commitSuccesses tbl st (.charge req now :: rest) rid
          = commitSuccesses tbl (applyOp tbl st (.charge req now)) rest rid := by
        simp [commitSuccesses]
      have ih' := ih (applyOp tbl st (.charge req now)) rid hf2
      constructor
      · intro hc
        rw [hcnt]
        exact ih'.1 (committedAt_of_eq (applyOp_charge_reservations _ _ _ _ _) hc)
      · rw [hcnt]
        exact ih'.2
    | adjust u amt reason now =>
      have hcnt : commitSuccesses tbl st (.adjust u amt reason now :: rest) rid
          = commitSuccesses tbl (applyOp tbl st (.adjust u amt reason now)) rest rid := by
        simp [commitSuccesses]
      have ih' := ih (applyOp tbl st (.adjust u amt reason now)) rid hf2
      constructor
      · intro hc
        rw [hcnt]
        exact ih'.1 (committedAt_of_eq (applyOp_adjust_reservations _ _ _ _ _ _ _) hc)
      · rw [hcnt]
        exact ih'.2
    | reserve req gid now =>
      have hcnt : commitSuccesses tbl st (.reserve req gid now :: rest) rid
          = commitSuccesses tbl (applyOp tbl st (.reserve req gid now)) rest rid := by
        simp [commitSuccesses]
      have ih' := ih (applyOp tbl st (.reserve req gid now)) rid hf2
      constructor
      · intro hc
        obtain ⟨r, hr, hs⟩ := hc
        have hne : rid ≠ reserveRid req gid now := by
          intro e
          rw [e, hf1] at hr
          exact Option.noConfusion hr
        rw [hcnt]
        refine ih'.1 ⟨r, ?_, hs⟩
        rw [applyOp_reserve_reservations_other tbl st req gid now rid hne, hr]
      · rw [hcnt]
        exact ih'.2
    | commit rid' a b now =>
      by_cases hrid : rid' = rid
      · subst hrid
        cases hB : exceptOk (Commit tbl st rid' a b now) with
        | true =>
          have hcomm := applyOp_commit_committed tbl st rid' a b now hB
          have hcnt : commitSuccesses tbl st (.commit rid' a b now :: rest) rid'
              = 1 + commitSuccesses tbl
                  (applyOp tbl st (.commit rid' a b now)) rest rid' := by
            simp [commitSuccesses, hB]
          have hzero := (ih _ rid' hf2).1 hcomm
          constructor
          · intro hc
            rw [commit_not_ok_of_committedAt tbl st rid' a b now hc] at hB
            exact Bool.noConfusion hB
          · rw [hcnt, hzero]
        | false =>
          have hst := applyOp_commit_of_not_ok tbl st rid' a b now hB
          have hcnt : commitSuccesses tbl st (.commit rid' a b now :: rest) rid'
              = commitSuccesses tbl st rest rid' := by
            simp only [commitSuccesses, hB]
            rw [hst]
            simp
          rw [hst] at hf2
          constructor
          · intro hc
            rw [hcnt]
            exact (ih st rid' hf2).1 hc
          · rw [hcnt]
            exact (ih st rid' hf2).2
      · have hcnt : commitSuccesses tbl st (.commit rid' a b now :: rest) rid
            = commitSuccesses tbl (applyOp tbl st (.commit rid' a b now)) rest rid := by
          simp [commitSuccesses, hrid]
        have hpres := applyOp_commit_reservations_other tbl st rid' a b now rid
          (fun e => hrid e.symm)
        have ih' := ih (applyOp tbl st (.commit rid' a b now)) rid hf2
        constructor
        · intro hc
          rw [hcnt]
          exact ih'.1 (committedAt_of_eq hpres hc)
        · rw [hcnt]
          exact ih'.2

/-! Concrete continuation of the scenario: a first Commit, then a Reserve
that regenerates the same reservation id (same user, request id and creation
second), then a second Commit. -/

/-- State after the scenario Reserve and a first Commit of 1000/500. -/
def st2 : BillingState := applyOp demoPricing stR (.commit rid1 1000 500 110)

/-- State after a second Reserve that re-derives `rid1`. -/
def st3 : BillingState := applyOp demoPricing st2 (.reserve req1 "gen" 100)

/-- C3 (counterexample): the trace Reserve, Commit, Reserve (same user,
request id and creation second, hence the same reservation id), Commit makes
the core return success for two Commits on the same reservation id: the
second Reserve overwrites the committed record back to `reserved`. -/
theorem double_commit_via_reserve_reuse :
    commitSuccesses demoPricing st10
      [.reserve req1 "gen" 100, .commit rid1 1000 500 110,
       .reserve req1 "gen" 100, .commit rid1 1000 500 130] rid1 = 2 := by
  have hcostR : calculate_cost demoPricing
      (reserveRecord st10 req1 "gen" 100 (1 / 80)).model
      (reserveRecord st10 req1 "gen" 100 (1 / 80)).endpoint 1000 500
      = .ok (1 / 80) := by
    simp only [reserveRecord, req1]
    exact cost_chat_1000_500
  have hC1 := Commit_eval demoPricing stR rid1 1000 500 110
    (reserveRecord st10 req1 "gen" 100 (1 / 80)) (1 / 80)
    (by rw [rid1_eq]; decide) (by norm_num) (by norm_num)
    stR_res (by simp [reserveRecord]) hcostR
  have hst2bal : st2.balances "usr-1" = 10 - 1 / 80 := by
    simp only [st2, applyOp, hC1]
    rw [show (reserveRecord st10 req1 "gen" 100 (1 / 80)).user_id = "usr-1" from
      by simp [reserveRecord, req1, resolveUser]]
    rw [updateFn_same, stR_bal]
    norm_num [reserveRecord]
  have hR2 := Reserve_eval demoPricing st2 req1 "gen" 100 (1 / 80) (by decide)
    (by decide) (by decide) cost_chat_1000_500 (by norm_num)
    (by rw [show resolveUser req1.user_id = "usr-1" from by decide, hst2bal]
        norm_num)
  have hst3res : st3.reservations rid1
      = some (reserveRecord st2 req1 "gen" 100 (1 / 80)) := by
    simp only [st3, applyOp, hR2]
    exact updateRes_same _ _ _
  have hcost3 : calculate_cost demoPricing
      (reserveRecord st2 req1 "gen" 100 (1 / 80)).model
      (reserveRecord st2 req1 "gen" 100 (1 / 80)).endpoint 1000 500
      = .ok (1 / 80) := by
    simp only [reserveRecord, req1]
    exact cost_chat_1000_500
  have hC2 := Commit_eval demoPricing st3 rid1 1000 500 130
    (reserveRecord st2 req1 "gen" 100 (1 / 80)) (1 / 80)
    (by rw [rid1_eq]; decide) (by norm_num) (by norm_num)
    hst3res (by simp [reserveRecord]) hcost3
  simp only [commitSuccesses]
  rw [show applyOp demoPricing st10 (.reserve req1 "gen" 100) = stR from rfl,
    show applyOp demoPricing stR (.commit rid1 1000 500 110) = st2 from rfl,
    show applyOp demoPricing st2 (.reserve req1 "gen" 100) = st3 from rfl]
  simp [hC1, hC2, exceptOk]

/-- C3 (amended): a Commit on a committed reservation fails with the
already-committed `ReservationError`; a Commit on a missing reservation fails
with the not-found `ReservationError`; a failing Commit leaves the state
unchanged; and along any accepted sequence in which no Reserve re-derives an
already-stored reservation id, at most one Commit per reservation id returns
success. (Without the freshness proviso a colliding Reserve — same user,
request id and epoch second — resets the record to `reserved` and re-enables
Commit; see the counterexample.) -/
theorem commit_at_most_once :
    (∀ tbl st rid a b now (resv : Reservation),
        st.reservations rid = some resv → resv.status = .committed →
        exceptOk (Commit tbl st rid a b now) = false
        ∧ (matchesReservationId rid = true → 0 < a → 0 ≤ b →
            Commit tbl st rid a b now
              = .error (.reservationError "Already committed")))
    ∧ (∀ tbl st rid a b now, st.reservations rid = none →
        exceptOk (Commit tbl st rid a b now) = false
        ∧ (matchesReservationId rid = true → 0 < a → 0 ≤ b →
            Commit tbl st rid a b now
              = .error (.reservationError "Reservation not found")))
    ∧ (∀ tbl st rid a b now e, Commit tbl st rid a b now = .error e →
        applyOp tbl st (.commit rid a b now) = st)
    ∧ (∀ tbl st ops rid, reservesFresh tbl st ops →
        commitSuccesses tbl st ops rid ≤ 1) := by
  refine ⟨?_, ?_, ?_, ?_⟩
  · intro tbl st rid a b now resv h1 h2
    exact Commit_committed tbl st rid a b now resv h1 h2
  · intro tbl st rid a b now h
    exact Commit_missing tbl st rid a b now h
  · intro tbl st rid a b now e h
    simp [applyOp, h]
  · intro tbl st ops rid hf
    exact (commit_count_aux tbl ops st rid hf).2

/-- Witness for C3: the double-commit rejection after the scenario Commit,
the not-found rejection on an empty store, and the at-most-once bound on a
concrete trace. -/
theorem commit_at_most_once_witness :
    exceptOk (Commit demoPricing st2 rid1 950 480 120) = false
    ∧ Commit demoPricing st2 rid1 950 480 120
        = .error (.reservationError "Already committed")
    ∧ Commit demoPricing st10 rid1 950 480 120
        = .error (.reservationError "Reservation not found")
    ∧ commitSuccesses demoPricing st10 [.commit rid1 950 480 120] rid1 ≤ 1 := by
  have hcostR : calculate_cost demoPricing
      (reserveRecord st10 req1 "gen" 100 (1 / 80)).model
      (reserveRecord st10 req1 "gen" 100 (1 / 80)).endpoint 1000 500
      = .ok (1 / 80) := by
    simp only [reserveRecord, req1]
    exact cost_chat_1000_500
  have hC1 := Commit_eval demoPricing stR rid1 1000 500 110
    (reserveRecord st10 req1 "gen" 100 (1 / 80)) (1 / 80)
    (by rw [rid1_eq]; decide) (by norm_num) (by norm_num)
    stR_res (by simp [reserveRecord]) hcostR
  have hres2 : st2.reservations rid1
      = some { reserveRecord st10 req1 "gen" 100 (1 / 80) with
               status := .committed, actual_cost := some (1 / 80),
               input_tokens_actual := some 1000,
               output_tokens_actual := some 500, ttl := 86400 } := by
    simp only [st2, applyOp, hC1]
    exact updateRes_same _ _ _
  obtain ⟨hA, hB⟩ := commit_at_most_once.1 demoPricing st2 rid1 950 480 120 _
    hres2 rfl
  refine ⟨hA, hB (by rw [rid1_eq]; decide) (by norm_num) (by norm_num), ?_, ?_⟩
  · exact (commit_at_most_once.2.1 demoPricing st10 rid1 950 480 120 rfl).2
      (by rw [rid1_eq]; decide) (by norm_num) (by norm_num)
  · exact commit_at_most_once.2.2.2 demoPricing st10 [.commit rid1 950 480 120]
      rid1 ⟨trivial, trivial⟩

end ZB
